import Mathlib

set_option maxRecDepth 4000000

/-!
Verification of `src/pay/notify_url_data.go` (package `pay`): the
`NotifyURLData` record and its `CheckAndInit` decoder, which verifies the
MD5 keyed digest over the canonically encoded query parameters and then
extracts, defaults and cross-validates the business fields.

Modelling conventions:
* Go `url.Values` (a possibly-nil `map[string][]string`) is modelled as
  `Option ValuesM`, where `ValuesM` is an association list from key to the
  ordered list of values (`none` is the nil map).
* Machine integers are modelled as `Nat`/`Int` with explicit `% 2^32`
  (resp. `% 2^64`) where Go's fixed-width arithmetic matters (inside MD5).
* The Go method mutates its receiver `data` and the map `values` (it
  deletes the `sign` key); `checkAndInit` therefore returns the final
  record, the final parameter set and the error, as an explicit triple.
* `ParseTime` lives outside the given source file and is passed as an
  explicit function argument `pt` (the spec treats it as an opaque
  external parser `ParseTime(string) -> Timestamp | error`).
-/

/-- A non-nil Go `url.Values`: keys mapped to their ordered value lists. -/
abbrev ValuesM : Type := List (String × List String)

/-- Modelled from the spec: the external timestamp type returned by the
opaque external parser `ParseTime`; only its identity matters here, so a
timestamp is represented by an opaque wrapper of the accepted string. -/
structure GoTime where
  raw : String
deriving DecidableEq, Repr

/-- Modelled from the spec: `NOTIFY_URL_DATA_CHARSET_GBK`, the GBK charset
constant referenced by `CheckAndInit` (declared elsewhere in the package;
the spec fixes the default charset to `"GBK"`). -/
def NOTIFY_URL_DATA_CHARSET_GBK : String := "GBK"

/-- Modelled from the spec: `NOTIFY_URL_DATA_SIGN_METHOD_MD5`, the MD5 sign
method constant referenced by `CheckAndInit` (declared elsewhere in the
package; the spec fixes the default signing-method tag to `"MD5"`). -/
def NOTIFY_URL_DATA_SIGN_METHOD_MD5 : String := "MD5"

/-- The decoded notification record (struct `NotifyURLData`). -/
structure NotifyURLData where
  ServiceVersion : String
  Charset        : String
  Signature      : String
  SignMethod     : String
  SignKeyIndex   : Int
  NotifyId       : String
  TradeMode      : Int
  TradeState     : Int
  PayInfo        : String
  BankBillNo     : String
  TransactionId  : String
  TimeEnd        : GoTime
  BankType       : String
  PartnerId      : String
  OutTradeNo     : String
  Attach         : String
  TotalFee       : Int
  Discount       : Int
  TransportFee   : Int
  ProductFee     : Int
  FeeType        : Int
  BuyerAlias     : String
deriving DecidableEq, Repr

/-- The Go zero value of `NotifyURLData` (a freshly declared receiver). -/
def zeroNotifyURLData : NotifyURLData :=
  { ServiceVersion := "", Charset := "", Signature := "", SignMethod := "",
    SignKeyIndex := 0, NotifyId := "", TradeMode := 0, TradeState := 0,
    PayInfo := "", BankBillNo := "", TransactionId := "",
    TimeEnd := { raw := "" }, BankType := "", PartnerId := "",
    OutTradeNo := "", Attach := "", TotalFee := 0, Discount := 0,
    TransportFee := 0, ProductFee := 0, FeeType := 0, BuyerAlias := "" }

/-- The distinct error outcomes of `CheckAndInit`.  Each constructor stands
for one `return` of a non-nil error in the Go source:
`valuesNil` = `errors.New("values == nil")` (the spec's `InvalidInput`),
`signEmpty` = `errors.New("sign is empty")` (`MissingSignature`),
`signMismatch` = the signature-verification failure (`SignatureMismatch`),
`parseIntErr s` = the error returned by `strconv.ParseInt(s, 10, 64)`
(`MalformedField`), `parseTimeErr e` = the error `e` surfaced verbatim
from `ParseTime` (`MalformedField("time_end")`), `inconsistentFees` =
`errors.New("transport_fee+product_fee != total_fee")`, and the
`...Empty` constructors are the per-field `errors.New("<name> is empty")`
(`MissingField(name)`). -/
inductive GoErr where
  | valuesNil
  | signEmpty
  | signMismatch
  | parseIntErr (s : String)
  | parseTimeErr (e : String)
  | notifyIdEmpty
  | tradeModeEmpty
  | tradeStateEmpty
  | transactionIdEmpty
  | timeEndEmpty
  | bankTypeEmpty
  | partnerEmpty
  | outTradeNoEmpty
  | totalFeeEmpty
  | inconsistentFees
  | feeTypeEmpty
deriving DecidableEq, Repr

/-- Go map indexing `values[k]`: the value list of `k`, `nil` (= `[]`)
when the key is absent. -/
def getVals (vs : ValuesM) (k : String) : List String :=
  match vs.find? (fun p => p.fst == k) with
  | some p => p.snd
  | none => []

/-- The Go test `len(values[k]) > 0 && len(values[k][0]) > 0` together with
the extraction of `values[k][0]`. -/
def firstVal (vs : ValuesM) (k : String) : Option String :=
  match getVals vs k with
  | [] => none
  | v :: _ => if v.length > 0 then some v else none

/-- The Go test `len(values[k]) > 0` together with the extraction of
`values[k][0]` (used for the optional fields that accept an empty first
value). -/
def headVal (vs : ValuesM) (k : String) : Option String :=
  (getVals vs k).head?

/-- `values.Del("sign")`. -/
def delSign (vs : ValuesM) : ValuesM :=
  vs.filter (fun p => !(p.fst == "sign"))

/-! ### Go `strconv.ParseInt(s, 10, 64)` -/

/-- Decimal digit test for a character. -/
def isDigitChar (c : Char) : Bool := 48 ≤ c.toNat && c.toNat ≤ 57

/-- `strconv.ParseInt(s, 10, 64)`: optional leading `+`/`-` sign, a
non-empty run of decimal digits, in-range for `int64`; `none` is any
parse error (the Go code only tests `err != nil`). -/
def goParseInt64 (s : String) : Option Int :=
  match s.data with
  | [] => none
  | c :: rest =>
    let signed : Bool × List Char :=
      if c = '-' then (true, rest)
      else if c = '+' then (false, rest) else (false, c :: rest)
    match signed with
    | (neg, digits) =>
      if digits.isEmpty then none
      else if digits.all isDigitChar then
        let n : Nat := digits.foldl (fun a d => a * 10 + (d.toNat - 48)) 0
        let v : Int := if neg then -(n : Int) else (n : Int)
        if -(2 ^ 63) ≤ v ∧ v ≤ 2 ^ 63 - 1 then some v else none
      else none

/-- Go 64-bit `int` addition: two's-complement wrap-around into
`[-2^63, 2^63)` (the fee cross-check at line 248 adds two `int` fields,
and Go integer addition wraps on overflow). -/
def addInt64 (a b : Int) : Int := (a + b + 2 ^ 63) % 2 ^ 64 - 2 ^ 63

/-! ### MD5 (`crypto/md5`), over byte lists, with `Nat` arithmetic mod 2^32 -/

/-- 32-bit truncating addition. -/
def add32 (a b : Nat) : Nat := (a + b) % 4294967296

/-- 32-bit complement (valid for inputs below `2^32`). -/
def not32 (x : Nat) : Nat := 4294967295 - x

/-- 32-bit left rotation. -/
def rotl32 (x n : Nat) : Nat :=
  ((x <<< n) ||| (x >>> (32 - n))) % 4294967296

/-- The 64 MD5 round constants `K[i] = floor(2^32 * |sin(i+1)|)`. -/
def md5K : List Nat :=
  [0xd76aa478, 0xe8c7b756, 0x242070db, 0xc1bdceee,
   0xf57c0faf, 0x4787c62a, 0xa8304613, 0xfd469501,
   0x698098d8, 0x8b44f7af, 0xffff5bb1, 0x895cd7be,
   0x6b901122, 0xfd987193, 0xa679438e, 0x49b40821,
   0xf61e2562, 0xc040b340, 0x265e5a51, 0xe9b6c7aa,
   0xd62f105d, 0x02441453, 0xd8a1e681, 0xe7d3fbc8,
   0x21e1cde6, 0xc33707d6, 0xf4d50d87, 0x455a14ed,
   0xa9e3e905, 0xfcefa3f8, 0x676f02d9, 0x8d2a4c8a,
   0xfffa3942, 0x8771f681, 0x6d9d6122, 0xfde5380c,
   0xa4beea44, 0x4bdecfa9, 0xf6bb4b60, 0xbebfbc70,
   0x289b7ec6, 0xeaa127fa, 0xd4ef3085, 0x04881d05,
   0xd9d4d039, 0xe6db99e5, 0x1fa27cf8, 0xc4ac5665,
   0xf4292244, 0x432aff97, 0xab9423a7, 0xfc93a039,
   0x655b59c3, 0x8f0ccc92, 0xffeff47d, 0x85845dd1,
   0x6fa87e4f, 0xfe2ce6e0, 0xa3014314, 0x4e0811a1,
   0xf7537e82, 0xbd3af235, 0x2ad7d2bb, 0xeb86d391]

/-- The 64 MD5 per-round left-rotation amounts. -/
def md5S : List Nat :=
  [7, 12, 17, 22, 7, 12, 17, 22, 7, 12, 17, 22, 7, 12, 17, 22,
   5, 9, 14, 20, 5, 9, 14, 20, 5, 9, 14, 20, 5, 9, 14, 20,
   4, 11, 16, 23, 4, 11, 16, 23, 4, 11, 16, 23, 4, 11, 16, 23,
   6, 10, 15, 21, 6, 10, 15, 21, 6, 10, 15, 21, 6, 10, 15, 21]

/-- Little-endian 32-bit word `j` of a 64-byte chunk. -/
def leWord (chunk : List Nat) (j : Nat) : Nat :=
  chunk.getD (4 * j) 0 + 256 * chunk.getD (4 * j + 1) 0 +
    65536 * chunk.getD (4 * j + 2) 0 + 16777216 * chunk.getD (4 * j + 3) 0

/-- One MD5 round on state `(a, b, c, d)` with message words `M`. -/
def md5Round (M : List Nat) (st : Nat × Nat × Nat × Nat) (i : Nat) :
    Nat × Nat × Nat × Nat :=
  match st with
  | (a, b, c, d) =>
    let fg : Nat × Nat :=
      if i < 16 then ((b &&& c) ||| (not32 b &&& d), i)
      else if i < 32 then ((d &&& b) ||| (not32 d &&& c), (5 * i + 1) % 16)
      else if i < 48 then (b ^^^ c ^^^ d, (3 * i + 5) % 16)
      else (c ^^^ (b ||| not32 d), (7 * i) % 16)
    let f := (fg.1 + a + md5K.getD i 0 + M.getD fg.2 0) % 4294967296
    (d, add32 b (rotl32 f (md5S.getD i 0)), b, c)

/-- Process one 64-byte chunk. -/
def md5Chunk (st : Nat × Nat × Nat × Nat) (chunk : List Nat) :
    Nat × Nat × Nat × Nat :=
  let M := (List.range 16).map (leWord chunk)
  match (List.range 64).foldl (md5Round M) st, st with
  | (a, b, c, d), (a0, b0, c0, d0) =>
    (add32 a0 a, add32 b0 b, add32 c0 c, add32 d0 d)

/-- Split a byte list into 64-byte chunks (structural recursion on a fuel
counter; fuel `l.length` suffices since every chunk consumes at least one
byte). -/
def chunks64Aux : Nat → List Nat → List (List Nat)
  | _, [] => []
  | 0, _ :: _ => []
  | fuel + 1, a :: rest => (a :: rest.take 63) :: chunks64Aux fuel (rest.drop 63)

/-- Split a byte list into 64-byte chunks. -/
def chunks64 (l : List Nat) : List (List Nat) := chunks64Aux l.length l

/-- Little-endian bytes of a 64-bit length value. -/
def le64 (n : Nat) : List Nat :=
  (List.range 8).map (fun i => (n >>> (8 * i)) % 256)

/-- Little-endian bytes of one 32-bit state word. -/
def le32 (n : Nat) : List Nat :=
  [n % 256, (n >>> 8) % 256, (n >>> 16) % 256, (n >>> 24) % 256]

/-- `md5.Sum`: the 16-byte MD5 digest of a byte list. -/
def md5Bytes (msg : List Nat) : List Nat :=
  let padded := msg ++ [128] ++
    List.replicate ((120 - ((msg.length + 1) % 64)) % 64) 0 ++
    le64 ((msg.length * 8) % 18446744073709551616)
  match (chunks64 padded).foldl md5Chunk
      (1732584193, 4023233417, 2562383102, 271733878) with
  | (a, b, c, d) => le32 a ++ le32 b ++ le32 c ++ le32 d

/-- UTF-8 encoding of one character (Go strings are UTF-8 byte strings). -/
def utf8Bytes (c : Char) : List Nat :=
  let n := c.toNat
  if n < 128 then [n]
  else if n < 2048 then [192 ||| (n >>> 6), 128 ||| (n &&& 63)]
  else if n < 65536 then
    [224 ||| (n >>> 12), 128 ||| ((n >>> 6) &&& 63), 128 ||| (n &&& 63)]
  else
    [240 ||| (n >>> 18), 128 ||| ((n >>> 12) &&& 63),
     128 ||| ((n >>> 6) &&& 63), 128 ||| (n &&& 63)]

/-- The UTF-8 bytes of a string. -/
def strBytes (s : String) : List Nat := s.data.flatMap utf8Bytes

/-- Lower-case hex digit of a nibble (`encoding/hex` alphabet). -/
def hexChar (n : Nat) : Char :=
  if n < 10 then Char.ofNat (48 + n) else Char.ofNat (87 + n)

/-- `hex.Encode`: lower-case hex string of a byte list. -/
def hexLower (bs : List Nat) : String :=
  { data := bs.flatMap (fun b => [hexChar (b / 16), hexChar (b % 16)]) }

/-- ASCII upper-casing of one character (`bytes.ToUpper` on ASCII data). -/
def asciiUpperChar (c : Char) : Char :=
  if 97 ≤ c.toNat ∧ c.toNat ≤ 122 then Char.ofNat (c.toNat - 32) else c

/-- `bytes.ToUpper` on an ASCII string. -/
def asciiUpper (s : String) : String :=
  { data := s.data.map asciiUpperChar }

/-- Lines 98-102: upper-case hex MD5 digest of a string. -/
def md5HexUpper (s : String) : String :=
  asciiUpper (hexLower (md5Bytes (strBytes s)))

/-! ### The canonical string and digest (lines 73-102) -/

/-- Byte-wise (ordinal) `<=` on character lists, comparing code points;
on UTF-8 encoded strings this coincides with Go's byte-wise string order
used by `sort.Strings`. -/
def charListLe : List Char → List Char → Bool
  | [], _ => true
  | _ :: _, [] => false
  | a :: as, b :: bs =>
    if a.toNat < b.toNat then true
    else if b.toNat < a.toNat then false
    else charListLe as bs

/-- Byte-wise (ordinal) `<=` on strings. -/
def strLe (s t : String) : Bool := charListLe s.data t.data

/-- `sort.Strings`: ascending byte-wise sort (insertion sort; equal for
string data to Go's pattern-defeating quicksort since the order is total
and antisymmetric). -/
def sortStrings (l : List String) : List String :=
  List.insertionSort (fun a b => strLe a b = true) l

/-- Lines 84-89: append `k=v`, preceded by `&` when the buffer is
non-empty. -/
def appendPair (buf k v : String) : String :=
  (if buf.length > 0 then buf ++ "&" else buf) ++ k ++ "=" ++ v

/-- Lines 73-96: the byte string that is hashed — keys sorted by byte-wise
ascending order, each key's values in arrival order as `k=v` entries
separated by `&`, then the trailing `key=<paySignKey>` entry (its `&`
separator again only when the buffer is non-empty).  `vs` is the parameter
set after `sign` has been deleted. -/
def buildString (vs : ValuesM) (paySignKey : String) : String :=
  let keys := sortStrings (vs.map Prod.fst)
  let buf := keys.foldl
    (fun buf k => (getVals vs k).foldl (fun buf v => appendPair buf k v) buf)
    ""
  (if buf.length > 0 then buf ++ "&" else buf) ++ "key=" ++ paySignKey

/-- Lines 73-102: the canonical digest `CheckAndInit` compares against the
received signature. -/
def signDigest (vs : ValuesM) (paySignKey : String) : String :=
  md5HexUpper (buildString vs paySignKey)

/-! ### The field-extraction steps (lines 110-265), one per Go `if` block -/

/-- Sequencing of the Go early-return style: a step only runs when no
earlier step has returned an error. -/
def andThen (r : NotifyURLData × Option GoErr)
    (f : NotifyURLData → NotifyURLData × Option GoErr) :
    NotifyURLData × Option GoErr :=
  match r with
  | (d, some e) => (d, some e)
  | (d, none) => f d

/-- Lines 110-114. -/
def stepServiceVersion (vs : ValuesM) (d : NotifyURLData) :
    NotifyURLData × Option GoErr :=
  match firstVal vs "service_version" with
  | some v => ({ d with ServiceVersion := v }, none)
  | none => ({ d with ServiceVersion := "1.0" }, none)

/-- Lines 116-120. -/
def stepCharset (vs : ValuesM) (d : NotifyURLData) :
    NotifyURLData × Option GoErr :=
  match firstVal vs "input_charset" with
  | some v => ({ d with Charset := v }, none)
  | none => ({ d with Charset := NOTIFY_URL_DATA_CHARSET_GBK }, none)

/-- Line 123: `data.Signature = signatures[0]`. -/
def stepSignature (sign0 : String) (d : NotifyURLData) :
    NotifyURLData × Option GoErr :=
  ({ d with Signature := sign0 }, none)

/-- Lines 125-129. -/
def stepSignType (vs : ValuesM) (d : NotifyURLData) :
    NotifyURLData × Option GoErr :=
  match firstVal vs "sign_type" with
  | some v => ({ d with SignMethod := v }, none)
  | none => ({ d with SignMethod := NOTIFY_URL_DATA_SIGN_METHOD_MD5 }, none)

/-- Lines 131-139. -/
def stepSignKeyIndex (vs : ValuesM) (d : NotifyURLData) :
    NotifyURLData × Option GoErr :=
  match firstVal vs "sign_key_index" with
  | some v =>
    match goParseInt64 v with
    | some n => ({ d with SignKeyIndex := n }, none)
    | none => (d, some (GoErr.parseIntErr v))
  | none => ({ d with SignKeyIndex := 1 }, none)

/-- Lines 141-145. -/
def stepNotifyId (vs : ValuesM) (d : NotifyURLData) :
    NotifyURLData × Option GoErr :=
  match firstVal vs "notify_id" with
  | some v => ({ d with NotifyId := v }, none)
  | none => (d, some GoErr.notifyIdEmpty)

/-- Lines 147-155. -/
def stepTradeMode (vs : ValuesM) (d : NotifyURLData) :
    NotifyURLData × Option GoErr :=
  match firstVal vs "trade_mode" with
  | some v =>
    match goParseInt64 v with
    | some n => ({ d with TradeMode := n }, none)
    | none => (d, some (GoErr.parseIntErr v))
  | none => (d, some GoErr.tradeModeEmpty)

/-- Lines 157-165. -/
def stepTradeState (vs : ValuesM) (d : NotifyURLData) :
    NotifyURLData × Option GoErr :=
  match firstVal vs "trade_state" with
  | some v =>
    match goParseInt64 v with
    | some n => ({ d with TradeState := n }, none)
    | none => (d, some (GoErr.parseIntErr v))
  | none => (d, some GoErr.tradeStateEmpty)

/-- Lines 167-169. -/
def stepPayInfo (vs : ValuesM) (d : NotifyURLData) :
    NotifyURLData × Option GoErr :=
  match headVal vs "pay_info" with
  | some v => ({ d with PayInfo := v }, none)
  | none => (d, none)

/-- Lines 171-173. -/
def stepBankBillNo (vs : ValuesM) (d : NotifyURLData) :
    NotifyURLData × Option GoErr :=
  match headVal vs "bank_billno" with
  | some v => ({ d with BankBillNo := v }, none)
  | none => (d, none)

/-- Lines 175-179. -/
def stepTransactionId (vs : ValuesM) (d : NotifyURLData) :
    NotifyURLData × Option GoErr :=
  match firstVal vs "transaction_id" with
  | some v => ({ d with TransactionId := v }, none)
  | none => (d, some GoErr.transactionIdEmpty)

/-- Lines 181-189; `pt` is the external `ParseTime`. -/
def stepTimeEnd (vs : ValuesM) (pt : String → Except String GoTime)
    (d : NotifyURLData) : NotifyURLData × Option GoErr :=
  match firstVal vs "time_end" with
  | some v =>
    match pt v with
    | Except.ok t => ({ d with TimeEnd := t }, none)
    | Except.error e => (d, some (GoErr.parseTimeErr e))
  | none => (d, some GoErr.timeEndEmpty)

/-- Lines 191-195. -/
def stepBankType (vs : ValuesM) (d : NotifyURLData) :
    NotifyURLData × Option GoErr :=
  match firstVal vs "bank_type" with
  | some v => ({ d with BankType := v }, none)
  | none => (d, some GoErr.bankTypeEmpty)

/-- Lines 197-201. -/
def stepPartner (vs : ValuesM) (d : NotifyURLData) :
    NotifyURLData × Option GoErr :=
  match firstVal vs "partner" with
  | some v => ({ d with PartnerId := v }, none)
  | none => (d, some GoErr.partnerEmpty)

/-- Lines 203-207. -/
def stepOutTradeNo (vs : ValuesM) (d : NotifyURLData) :
    NotifyURLData × Option GoErr :=
  match firstVal vs "out_trade_no" with
  | some v => ({ d with OutTradeNo := v }, none)
  | none => (d, some GoErr.outTradeNoEmpty)

/-- Lines 209-211. -/
def stepAttach (vs : ValuesM) (d : NotifyURLData) :
    NotifyURLData × Option GoErr :=
  match headVal vs "attach" with
  | some v => ({ d with Attach := v }, none)
  | none => (d, none)

/-- Lines 213-221. -/
def stepTotalFee (vs : ValuesM) (d : NotifyURLData) :
    NotifyURLData × Option GoErr :=
  match firstVal vs "total_fee" with
  | some v =>
    match goParseInt64 v with
    | some n => ({ d with TotalFee := n }, none)
    | none => (d, some (GoErr.parseIntErr v))
  | none => (d, some GoErr.totalFeeEmpty)

/-- Lines 223-229. -/
def stepDiscount (vs : ValuesM) (d : NotifyURLData) :
    NotifyURLData × Option GoErr :=
  match firstVal vs "discount" with
  | some v =>
    match goParseInt64 v with
    | some n => ({ d with Discount := n }, none)
    | none => (d, some (GoErr.parseIntErr v))
  | none => (d, none)

/-- Lines 231-237. -/
def stepTransportFee (vs : ValuesM) (d : NotifyURLData) :
    NotifyURLData × Option GoErr :=
  match firstVal vs "transport_fee" with
  | some v =>
    match goParseInt64 v with
    | some n => ({ d with TransportFee := n }, none)
    | none => (d, some (GoErr.parseIntErr v))
  | none => (d, none)

/-- Lines 239-245. -/
def stepProductFee (vs : ValuesM) (d : NotifyURLData) :
    NotifyURLData × Option GoErr :=
  match firstVal vs "product_fee" with
  | some v =>
    match goParseInt64 v with
    | some n => ({ d with ProductFee := n }, none)
    | none => (d, some (GoErr.parseIntErr v))
  | none => (d, none)

/-- Lines 247-251: the transport/product/total fee invariant.  The sum
`data.TransportFee + data.ProductFee` is Go 64-bit `int` addition, which
wraps on overflow (`addInt64`). -/
def stepFeeCheck (d : NotifyURLData) : NotifyURLData × Option GoErr :=
  if d.TransportFee ≠ 0 ∨ d.ProductFee ≠ 0 then
    if addInt64 d.TransportFee d.ProductFee ≠ d.TotalFee then
      (d, some GoErr.inconsistentFees)
    else (d, none)
  else (d, none)

/-- Lines 253-261. -/
def stepFeeType (vs : ValuesM) (d : NotifyURLData) :
    NotifyURLData × Option GoErr :=
  match firstVal vs "fee_type" with
  | some v =>
    match goParseInt64 v with
    | some n => ({ d with FeeType := n }, none)
    | none => (d, some (GoErr.parseIntErr v))
  | none => (d, some GoErr.feeTypeEmpty)

/-- Lines 263-265. -/
def stepBuyerAlias (vs : ValuesM) (d : NotifyURLData) :
    NotifyURLData × Option GoErr :=
  match headVal vs "buyer_alias" with
  | some v => ({ d with BuyerAlias := v }, none)
  | none => (d, none)

/-- Lines 110-139: the protocol-field extraction, in source order. -/
def protocolSteps (vs : ValuesM) (sign0 : String) (d : NotifyURLData) :
    NotifyURLData × Option GoErr :=
  andThen (stepServiceVersion vs d) fun d =>
  andThen (stepCharset vs d) fun d =>
  andThen (stepSignature sign0 d) fun d =>
  andThen (stepSignType vs d) fun d =>
  stepSignKeyIndex vs d

/-- Lines 141-265: the business-field extraction and cross-validation, in
source order. -/
def businessSteps (vs : ValuesM) (pt : String → Except String GoTime)
    (d : NotifyURLData) : NotifyURLData × Option GoErr :=
  andThen (stepNotifyId vs d) fun d =>
  andThen (stepTradeMode vs d) fun d =>
  andThen (stepTradeState vs d) fun d =>
  andThen (stepPayInfo vs d) fun d =>
  andThen (stepBankBillNo vs d) fun d =>
  andThen (stepTransactionId vs d) fun d =>
  andThen (stepTimeEnd vs pt d) fun d =>
  andThen (stepBankType vs d) fun d =>
  andThen (stepPartner vs d) fun d =>
  andThen (stepOutTradeNo vs d) fun d =>
  andThen (stepAttach vs d) fun d =>
  andThen (stepTotalFee vs d) fun d =>
  andThen (stepDiscount vs d) fun d =>
  andThen (stepTransportFee vs d) fun d =>
  andThen (stepProductFee vs d) fun d =>
  andThen (stepFeeCheck d) fun d =>
  andThen (stepFeeType vs d) fun d =>
  stepBuyerAlias vs d

/-- `func (data *NotifyURLData) CheckAndInit(values url.Values, paySignKey
string) (err error)`, lines 59-268.  The result triple is the final
receiver value, the final parameter set (the receiver and the map are
mutated in place in Go) and the returned error (`none` = `nil`). -/
def checkAndInit (d : NotifyURLData) (values : Option ValuesM)
    (paySignKey : String) (pt : String → Except String GoTime) :
    NotifyURLData × Option ValuesM × Option GoErr :=
  match values with
  | none => (d, none, some GoErr.valuesNil)
  | some vs =>
    match firstVal vs "sign" with
    | none => (d, some vs, some GoErr.signEmpty)
    | some s0 =>
      let vs1 := delSign vs
      if s0 = signDigest vs1 paySignKey then
        let r := andThen (protocolSteps vs1 s0 d) (businessSteps vs1 pt)
        (r.1, some vs1, r.2)
      else (d, some vs1, some GoErr.signMismatch)

/-! ### Basic lemmas about the parameter-set operations -/

theorem getVals_delSign (vs : ValuesM) (k : String) (hk : k ≠ "sign") :
    getVals (delSign vs) k = getVals vs k := by
  induction vs with
  | nil => rfl
  | cons p rest ih =>
    rcases p with ⟨pk, pv⟩
    by_cases hs : pk = "sign"
    · subst hs
      have h1 : ("sign" == k) = false := by
        simp only [beq_eq_false_iff_ne, ne_eq]
        exact fun h => hk h.symm
      simp only [delSign, List.filter_cons] at *
      simp only [beq_self_eq_true, Bool.not_true, if_neg Bool.false_ne_true,
        ite_false] at *
      simp only [getVals, List.find?_cons, h1] at *
      exact ih
    · have h2 : (pk == "sign") = false := by simp [hs]
      simp only [delSign, List.filter_cons, h2, Bool.not_false, if_true] at *
      by_cases hpk : pk = k
      · subst hpk
        simp [getVals, List.find?_cons]
      · have h3 : (pk == k) = false := by simp [hpk]
        simp only [getVals, List.find?_cons, h3] at *
        exact ih

theorem firstVal_delSign (vs : ValuesM) (k : String) (hk : k ≠ "sign") :
    firstVal (delSign vs) k = firstVal vs k := by
  unfold firstVal
  rw [getVals_delSign vs k hk]

theorem headVal_delSign (vs : ValuesM) (k : String) (hk : k ≠ "sign") :
    headVal (delSign vs) k = headVal vs k := by
  unfold headVal
  rw [getVals_delSign vs k hk]

theorem andThen_none (d : NotifyURLData)
    (f : NotifyURLData → NotifyURLData × Option GoErr) :
    andThen (d, none) f = f d := rfl

theorem andThen_some (d : NotifyURLData) (e : GoErr)
    (f : NotifyURLData → NotifyURLData × Option GoErr) :
    andThen (d, some e) f = (d, some e) := rfl

theorem goParseInt64_range (s : String) (n : Int)
    (h : goParseInt64 s = some n) :
    -(2 ^ 63) ≤ n ∧ n ≤ 2 ^ 63 - 1 := by
  unfold goParseInt64 at h
  repeat'
    first
    | split at h
    | dsimp only at h
  all_goals
    first
    | (injection h with h2
       subst h2
       assumption)
    | (cases h)

theorem addInt64_eq_of_range (a b : Int) (h1 : -(2 ^ 63) ≤ a + b)
    (h2 : a + b ≤ 2 ^ 63 - 1) : addInt64 a b = a + b := by
  unfold addInt64
  have e63 : (2 : Int) ^ 63 = 9223372036854775808 := by norm_num
  have e64 : (2 : Int) ^ 64 = 18446744073709551616 := by norm_num
  rw [e63] at h1 h2 ⊢
  rw [e64]
  rw [Int.emod_eq_of_lt (by omega) (by omega)]
  omega

/-- The values of the final parameter set under a key (empty for nil). -/
def paramVals (o : Option ValuesM) (k : String) : List String :=
  match o with
  | none => []
  | some vs => getVals vs k

/-! ### Concrete fixtures used by witnesses and counterexamples -/

/-- A trivially succeeding external timestamp parser (a concrete stand-in
for `ParseTime` in closed instances). -/
def ptOk : String → Except String GoTime := fun s => Except.ok { raw := s }

/-- A parameter set whose only key is `sign`, carrying the digest that is
correct for secret key `"secret"` (the upper-case hex MD5 of
`key=secret`). -/
def signOnlyParams : ValuesM := [("sign", ["80353F06772F9B5C80204F40D0D34FDA"])]

/-- C10: for a parameter set whose only key is `sign` — so that nothing
remains after `sign` is removed — the byte string hashed by
`CheckAndInit` is exactly `key=<paySignKey>`, with no leading `&`: the
separator before the trailing key entry is emitted only when the buffer
already holds a `key=value` entry. -/
theorem c10_sign_only_hashes_key_only (paySignKey : String)
    (signVals : List String) :
    buildString (delSign [("sign", signVals)]) paySignKey
      = "key=" ++ paySignKey := rfl

/-- C1: whenever the parameter set carries a non-empty `sign` value that
differs (byte-for-byte) from the canonical digest over the remaining
parameters, `CheckAndInit` returns the signature-mismatch error, leaves
the record exactly as it was (no business field is extracted), and the
parameter set only loses its `sign` key. -/
theorem c1_signature_mismatch_rejects (d0 : NotifyURLData) (vs : ValuesM)
    (paySignKey s0 : String) (pt : String → Except String GoTime)
    (hs : firstVal vs "sign" = some s0)
    (hne : s0 ≠ signDigest (delSign vs) paySignKey) :
    checkAndInit d0 (some vs) paySignKey pt
      = (d0, some (delSign vs), some GoErr.signMismatch) := by
  simp [checkAndInit, hs, hne]

/-- Witness for C1 at a concrete mismatching input. -/
theorem c1_signature_mismatch_rejects_witness :
    firstVal [("sign", ["ABC"])] "sign" = some "ABC" ∧
    "ABC" ≠ signDigest (delSign [("sign", ["ABC"])]) "k" ∧
    checkAndInit zeroNotifyURLData (some [("sign", ["ABC"])]) "k" ptOk
      = (zeroNotifyURLData, some (delSign [("sign", ["ABC"])]),
         some GoErr.signMismatch) :=
  ⟨by decide, by decide,
   c1_signature_mismatch_rejects zeroNotifyURLData [("sign", ["ABC"])]
     "k" "ABC" ptOk (by decide) (by decide)⟩

/-- C9 counterexample: on the empty (but non-nil) parameter map,
`CheckAndInit` fails with the missing-signature error (`sign is empty`),
not with the absent-input error (`values == nil`) that the claim
asserts. -/
theorem c9_empty_map_counterexample :
    checkAndInit zeroNotifyURLData (some []) "k" ptOk
      = (zeroNotifyURLData, some [], some GoErr.signEmpty) ∧
    GoErr.signEmpty ≠ GoErr.valuesNil :=
  ⟨rfl, by decide⟩

/-- C9 (amended): only the nil parameter set fails with the absent-input
error; every non-nil parameter set whose `sign` parameter is missing or
has an empty first value — including the empty map — fails with the
missing-signature (`sign is empty`) error. -/
theorem c9_amended_precondition_errors (d0 : NotifyURLData)
    (paySignKey : String) (pt : String → Except String GoTime)
    (vs : ValuesM) (h : firstVal vs "sign" = none) :
    checkAndInit d0 none paySignKey pt = (d0, none, some GoErr.valuesNil) ∧
    checkAndInit d0 (some vs) paySignKey pt
      = (d0, some vs, some GoErr.signEmpty) :=
  ⟨rfl, by simp [checkAndInit, h]⟩

/-- Witness for the amended C9 at the empty map. -/
theorem c9_amended_precondition_errors_witness :
    firstVal [] "sign" = none ∧
    checkAndInit zeroNotifyURLData none "k" ptOk
      = (zeroNotifyURLData, none, some GoErr.valuesNil) ∧
    checkAndInit zeroNotifyURLData (some []) "k" ptOk
      = (zeroNotifyURLData, some [], some GoErr.signEmpty) :=
  ⟨by decide,
   (c9_amended_precondition_errors zeroNotifyURLData "k" ptOk [] (by decide)).1,
   (c9_amended_precondition_errors zeroNotifyURLData "k" ptOk [] (by decide)).2⟩

/-- C7 counterexample: a correctly signed parameter set that lacks
`notify_id` makes `CheckAndInit` return an error, yet the record's
`ServiceVersion` field has already been set to `"1.0"` (on the Go zero
receiver it was `""`): the record is partially populated alongside the
error. -/
theorem c7_partial_population_counterexample :
    (checkAndInit zeroNotifyURLData (some signOnlyParams) "secret" ptOk).2.2
        = some GoErr.notifyIdEmpty ∧
    (checkAndInit zeroNotifyURLData (some signOnlyParams) "secret"
        ptOk).1.ServiceVersion = "1.0" ∧
    zeroNotifyURLData.ServiceVersion ≠ "1.0" := by
  refine ⟨?_, ?_, by decide⟩ <;> decide

/-- C7 (amended): when `CheckAndInit` rejects the input at or before
signature verification — nil parameter set, missing/empty `sign`, or a
signature mismatch — the record is left exactly as supplied; errors
raised after signature verification may leave the record partially
populated (see the counterexample). -/
theorem c7_amended_unmodified_before_signature (d0 : NotifyURLData)
    (values : Option ValuesM) (paySignKey : String)
    (pt : String → Except String GoTime)
    (h : values = none ∨
      (∃ vs, values = some vs ∧ firstVal vs "sign" = none) ∨
      (∃ vs s0, values = some vs ∧ firstVal vs "sign" = some s0 ∧
        s0 ≠ signDigest (delSign vs) paySignKey)) :
    (checkAndInit d0 values paySignKey pt).1 = d0 := by
  rcases h with h | ⟨vs, rfl, h⟩ | ⟨vs, s0, rfl, h1, h2⟩
  · subst h; rfl
  · simp [checkAndInit, h]
  · simp [checkAndInit, h1, h2]

/-- Witness for the amended C7 at the nil parameter set. -/
theorem c7_amended_unmodified_before_signature_witness :
    (checkAndInit zeroNotifyURLData none "k" ptOk).1 = zeroNotifyURLData :=
  c7_amended_unmodified_before_signature zeroNotifyURLData none "k" ptOk
    (Or.inl rfl)

/-- C8: the only change `CheckAndInit` ever makes to the parameter set is
the removal of the `sign` key: the final set is either the original or
the original minus `sign`, and every key other than `sign` still maps to
its original value sequence, on success and on failure alike. -/
theorem c8_only_sign_removed (d0 : NotifyURLData) (values : Option ValuesM)
    (paySignKey : String) (pt : String → Except String GoTime)
    (k : String) (hk : k ≠ "sign") :
    ((checkAndInit d0 values paySignKey pt).2.1 = values ∨
     (checkAndInit d0 values paySignKey pt).2.1
       = Option.map delSign values) ∧
    paramVals (checkAndInit d0 values paySignKey pt).2.1 k
      = paramVals values k := by
  cases values with
  | none => exact ⟨Or.inl rfl, rfl⟩
  | some vs =>
    rcases hfv : firstVal vs "sign" with _ | s0
    · refine ⟨Or.inl ?_, ?_⟩ <;> simp [checkAndInit, hfv]
    · by_cases he : s0 = signDigest (delSign vs) paySignKey
      · refine ⟨Or.inr ?_, ?_⟩ <;>
          simp [checkAndInit, hfv, he, paramVals, getVals_delSign vs k hk]
      · refine ⟨Or.inr ?_, ?_⟩ <;>
          simp [checkAndInit, hfv, he, paramVals, getVals_delSign vs k hk]

/-- Witness for C8 at a concrete input and key. -/
theorem c8_only_sign_removed_witness :
    ("a" : String) ≠ "sign" ∧
    (((checkAndInit zeroNotifyURLData (some [("a", ["1"])]) "k" ptOk).2.1
        = some [("a", ["1"])] ∨
      (checkAndInit zeroNotifyURLData (some [("a", ["1"])]) "k" ptOk).2.1
        = Option.map delSign (some [("a", ["1"])])) ∧
     paramVals (checkAndInit zeroNotifyURLData (some [("a", ["1"])]) "k"
         ptOk).2.1 "a"
       = paramVals (some [("a", ["1"])]) "a") :=
  ⟨by decide,
   c8_only_sign_removed zeroNotifyURLData (some [("a", ["1"])]) "k" ptOk
     "a" (by decide)⟩

/-! ### C2: the canonical string spelled out as the spec describes it -/

/-- The `key=value` entries, for each key in byte-wise ascending order and
each of its values in arrival order. -/
def entriesOf (vs : ValuesM) : List String :=
  (sortStrings (vs.map Prod.fst)).flatMap
    (fun k => (getVals vs k).map (fun v => k ++ "=" ++ v))

/-- Entries joined with the `&` separator between successive entries. -/
def joinAmp : List String → String
  | [] => ""
  | [e] => e
  | e :: f :: es => e ++ "&" ++ joinAmp (f :: es)

/-- The string described by the claim: the joined `key=value` entries
always followed by the trailing entry `&key=<secretKey>` (this is the
spec's wording; the source omits that `&` when no entry precedes it). -/
def specCanonicalString (vs : ValuesM) (paySignKey : String) : String :=
  joinAmp (entriesOf vs) ++ "&key=" ++ paySignKey

/-- The digest the claim describes. -/
def specDigest (vs : ValuesM) (paySignKey : String) : String :=
  md5HexUpper (specCanonicalString vs paySignKey)

/-- The single-entry step the buffer loop performs. -/
def stepEntry (buf e : String) : String :=
  (if buf.length > 0 then buf ++ "&" else buf) ++ e

/-- `&`-prefixed concatenation of a list of entries. -/
def ampPrefix : List String → String
  | [] => ""
  | e :: es => "&" ++ e ++ ampPrefix es

theorem foldl_flatMap_eq {α β γ : Type} (g : γ → List α) (f : β → α → β) :
    ∀ (l : List γ) (init : β),
      l.foldl (fun b c => (g c).foldl f b) init = (l.flatMap g).foldl f init
  | [], _ => rfl
  | c :: cs, init => by
    simp only [List.foldl_cons, List.flatMap_cons, List.foldl_append]
    exact foldl_flatMap_eq g f cs _

theorem str_ne_empty_iff (s : String) : s ≠ "" ↔ 0 < s.length := by
  rcases s with ⟨l⟩
  cases l with
  | nil => simp [String.length]
  | cons c cs =>
    simp only [String.length, List.length_cons]
    constructor
    · intro _; omega
    · intro _ h
      exact List.noConfusion (congrArg String.data h)

theorem stepEntry_of_ne (s e : String) (h : s ≠ "") :
    stepEntry s e = s ++ "&" ++ e := by
  unfold stepEntry
  rw [if_pos ((str_ne_empty_iff s).mp h)]

theorem append_amp_ne_empty (s e : String) : s ++ "&" ++ e ≠ "" := by
  rw [str_ne_empty_iff]
  simp only [String.length_append]
  have h : 0 < ("&" : String).length := by decide
  omega

theorem foldl_stepEntry_of_ne (es : List String) :
    ∀ s, s ≠ "" → es.foldl stepEntry s = s ++ ampPrefix es := by
  induction es with
  | nil => intro s _; simp [ampPrefix]
  | cons e es ih =>
    intro s hs
    simp only [List.foldl_cons, ampPrefix]
    rw [stepEntry_of_ne s e hs, ih _ (append_amp_ne_empty s e)]
    simp [String.append_assoc]

theorem joinAmp_cons (e : String) (es : List String) :
    joinAmp (e :: es) = e ++ ampPrefix es := by
  induction es generalizing e with
  | nil => simp [joinAmp, ampPrefix]
  | cons f es ih =>
    simp only [joinAmp, ampPrefix, ih f]
    simp [String.append_assoc]

theorem foldl_stepEntry_eq_joinAmp (es : List String)
    (hne : ∀ e ∈ es, e ≠ "") : es.foldl stepEntry "" = joinAmp es := by
  cases es with
  | nil => rfl
  | cons e es =>
    have he : e ≠ "" := hne e (List.mem_cons_self e es)
    simp only [List.foldl_cons]
    have h0 : stepEntry "" e = e := by simp [stepEntry]
    rw [h0, joinAmp_cons]
    cases es with
    | nil => simp [ampPrefix]
    | cons f es => exact foldl_stepEntry_of_ne (f :: es) e he

theorem entriesOf_ne_empty (vs : ValuesM) :
    ∀ e ∈ entriesOf vs, e ≠ "" := by
  intro e he
  unfold entriesOf at he
  rcases List.mem_flatMap.mp he with ⟨k, _, hk⟩
  rcases List.mem_map.mp hk with ⟨v, _, rfl⟩
  rw [str_ne_empty_iff]
  simp only [String.length_append]
  have h : 0 < ("=" : String).length := by decide
  omega

/-- The buffer loop of `buildString` computes the `&`-joined entries. -/
theorem buildString_eq (vs : ValuesM) (paySignKey : String) :
    buildString vs paySignKey
      = (if (joinAmp (entriesOf vs)).length > 0
          then joinAmp (entriesOf vs) ++ "&" else joinAmp (entriesOf vs))
        ++ "key=" ++ paySignKey := by
  unfold buildString
  have h1 : (sortStrings (vs.map Prod.fst)).foldl
      (fun buf k => (getVals vs k).foldl (fun buf v => appendPair buf k v) buf)
      "" = joinAmp (entriesOf vs) := by
    have h2 : ∀ (k : String) (buf : String),
        (getVals vs k).foldl (fun buf v => appendPair buf k v) buf
          = ((getVals vs k).map (fun v => k ++ "=" ++ v)).foldl
              stepEntry buf := by
      intro k buf
      rw [List.foldl_map]
      apply List.foldl_ext
      intro b v hv
      unfold appendPair stepEntry
      simp [String.append_assoc]
    calc (sortStrings (vs.map Prod.fst)).foldl
          (fun buf k =>
            (getVals vs k).foldl (fun buf v => appendPair buf k v) buf) ""
        = (sortStrings (vs.map Prod.fst)).foldl
            (fun buf k =>
              ((getVals vs k).map (fun v => k ++ "=" ++ v)).foldl
                stepEntry buf) "" := by
          apply List.foldl_ext
          intro b k hk
          exact h2 k b
      _ = (entriesOf vs).foldl stepEntry "" := by
          unfold entriesOf
          exact foldl_flatMap_eq _ _ _ _
      _ = joinAmp (entriesOf vs) := foldl_stepEntry_eq_joinAmp _
            (entriesOf_ne_empty vs)
  simp only [h1]

/-- C2 counterexample: with `sign` as the only parameter (received
non-empty), the source hashes `key=<secret>` with no leading `&`, while
the claim's byte string has the unconditional `&key=<secret>` trailing
entry; the two digests differ. -/
theorem c2_trailing_amp_counterexample :
    firstVal [("sign", ["X"])] "sign" = some "X" ∧
    signDigest (delSign [("sign", ["X"])]) "k"
      ≠ specDigest (delSign [("sign", ["X"])]) "k" :=
  ⟨by decide, by decide⟩

/-- C2 (amended): whenever at least one `key=value` entry remains after
removing `sign` (some non-sign key has at least one value), the digest
`CheckAndInit` compares is exactly the upper-case hex MD5 of the sorted
`&`-joined entries followed by the trailing `&key=<secretKey>` entry; the
`&` before the trailing entry (like every separator) is emitted only
because the buffer is already non-empty. -/
theorem c2_amended_digest_formula (vs : ValuesM) (paySignKey : String)
    (h : entriesOf (delSign vs) ≠ []) :
    signDigest (delSign vs) paySignKey
      = specDigest (delSign vs) paySignKey := by
  unfold signDigest specDigest
  congr 1
  rw [buildString_eq]
  rcases he : entriesOf (delSign vs) with _ | ⟨e, es⟩
  · exact absurd he h
  · have hne : e ≠ "" :=
      entriesOf_ne_empty (delSign vs) e (he ▸ List.mem_cons_self e es)
    have hlen : 0 < (joinAmp (e :: es)).length := by
      rw [joinAmp_cons]
      have := (str_ne_empty_iff e).mp hne
      simp only [String.length_append]
      omega
    rw [if_pos hlen]
    unfold specCanonicalString
    rw [he, String.append_assoc (joinAmp (e :: es)) "&" "key="]
    rfl

/-- Witness for the amended C2 at a one-entry parameter set. -/
theorem c2_amended_digest_formula_witness :
    entriesOf (delSign [("a", ["1"]), ("sign", ["x"])]) ≠ [] ∧
    signDigest (delSign [("a", ["1"]), ("sign", ["x"])]) "k"
      = specDigest (delSign [("a", ["1"]), ("sign", ["x"])]) "k" :=
  ⟨by decide,
   c2_amended_digest_formula [("a", ["1"]), ("sign", ["x"])] "k" (by decide)⟩

/-! ### C3: the digest is independent of the key arrival order -/

theorem char_toNat_inj {a b : Char} (h : a.toNat = b.toNat) : a = b := by
  calc a = Char.ofNat a.toNat := (Char.ofNat_toNat a).symm
    _ = Char.ofNat b.toNat := by rw [h]
    _ = b := Char.ofNat_toNat b

theorem charListLe_trans :
    ∀ as bs cs : List Char, charListLe as bs = true →
      charListLe bs cs = true → charListLe as cs = true
  | [], _, _, _, _ => rfl
  | _ :: _, [], _, h1, _ => by simp [charListLe] at h1
  | _ :: _, _ :: _, [], _, h2 => by simp [charListLe] at h2
  | a :: as, b :: bs, c :: cs, h1, h2 => by
    simp only [charListLe] at h1 h2 ⊢
    by_cases hab : a.toNat < b.toNat <;> by_cases hbc : b.toNat < c.toNat
    · rw [if_pos (Nat.lt_trans hab hbc)]
    · rw [if_neg hbc] at h2
      by_cases hcb : c.toNat < b.toNat
      · rw [if_pos hcb] at h2
        exact absurd h2 (by simp)
      · rw [if_pos (by omega)]
    · rw [if_neg hab] at h1
      by_cases hba : b.toNat < a.toNat
      · rw [if_pos hba] at h1
        exact absurd h1 (by simp)
      · rw [if_pos (by omega)]
    · rw [if_neg hab] at h1
      rw [if_neg hbc] at h2
      by_cases hba : b.toNat < a.toNat
      · rw [if_pos hba] at h1
        exact absurd h1 (by simp)
      · by_cases hcb : c.toNat < b.toNat
        · rw [if_pos hcb] at h2
          exact absurd h2 (by simp)
        · rw [if_neg hba] at h1
          rw [if_neg hcb] at h2
          rw [if_neg (by omega), if_neg (by omega)]
          exact charListLe_trans as bs cs h1 h2

theorem charListLe_total :
    ∀ as bs : List Char, charListLe as bs = true ∨ charListLe bs as = true
  | [], _ => Or.inl rfl
  | _ :: _, [] => Or.inr rfl
  | a :: as, b :: bs => by
    simp only [charListLe]
    by_cases hab : a.toNat < b.toNat
    · exact Or.inl (by rw [if_pos hab])
    · by_cases hba : b.toNat < a.toNat
      · exact Or.inr (by rw [if_pos hba])
      · rw [if_neg hab, if_neg hba, if_neg hba, if_neg hab]
        exact charListLe_total as bs

theorem charListLe_antisymm :
    ∀ as bs : List Char, charListLe as bs = true →
      charListLe bs as = true → as = bs
  | [], [], _, _ => rfl
  | [], _ :: _, _, h2 => by simp [charListLe] at h2
  | _ :: _, [], h1, _ => by simp [charListLe] at h1
  | a :: as, b :: bs, h1, h2 => by
    simp only [charListLe] at h1 h2
    by_cases hab : a.toNat < b.toNat
    · rw [if_neg (Nat.lt_asymm hab), if_pos hab] at h2
      exact absurd h2 (by simp)
    · by_cases hba : b.toNat < a.toNat
      · rw [if_neg hab, if_pos hba] at h1
        exact absurd h1 (by simp)
      · rw [if_neg hab, if_neg hba] at h1
        rw [if_neg hba, if_neg hab] at h2
        rw [char_toNat_inj (show a.toNat = b.toNat by omega),
          charListLe_antisymm as bs h1 h2]

instance : IsTrans String (fun a b => strLe a b = true) :=
  ⟨fun a b c h1 h2 => charListLe_trans a.data b.data c.data h1 h2⟩

instance : IsTotal String (fun a b => strLe a b = true) :=
  ⟨fun a b => charListLe_total a.data b.data⟩

instance : IsAntisymm String (fun a b => strLe a b = true) :=
  ⟨fun a b h1 h2 => by
    have := charListLe_antisymm a.data b.data h1 h2
    rcases a with ⟨la⟩
    rcases b with ⟨lb⟩
    exact congrArg String.mk this⟩

theorem getVals_perm (vs1 vs2 : ValuesM) (hp : vs1.Perm vs2)
    (hnd : (vs1.map Prod.fst).Nodup) (k : String) :
    getVals vs1 k = getVals vs2 k := by
  rcases h1 : vs1.find? (fun p => p.fst == k) with _ | pr
  · rcases h2 : vs2.find? (fun p => p.fst == k) with _ | pr2
    · simp [getVals, h1, h2]
    · have hmem : pr2 ∈ vs1 := hp.symm.subset (List.mem_of_find?_eq_some h2)
      exact absurd (List.find?_some h2) (List.find?_eq_none.mp h1 pr2 hmem)
  · have hpk : pr.fst = k := by
      have := List.find?_some h1
      simpa using this
    have hmem1 : pr ∈ vs1 := List.mem_of_find?_eq_some h1
    rcases h2 : vs2.find? (fun p => p.fst == k) with _ | pr2
    · have := List.find?_eq_none.mp h2 pr (hp.subset hmem1)
      simp [hpk] at this
    · have hpr : pr = pr2 :=
        List.inj_on_of_nodup_map hnd hmem1
          (hp.symm.subset (List.mem_of_find?_eq_some h2))
          (by
            have hp2k : pr2.fst = k := by
              have := List.find?_some h2
              simpa using this
            rw [hpk, hp2k])
      simp [getVals, h1, h2, hpr]

/-- C3: two parameter sets with the same keys mapped to the same value
sequences, differing only in key enumeration order (and with no duplicate
keys, as in a Go map), produce the identical canonical digest. -/
theorem c3_digest_key_order_independent (vs1 vs2 : ValuesM)
    (paySignKey : String) (hp : vs1.Perm vs2)
    (hnd : (vs1.map Prod.fst).Nodup) :
    signDigest vs1 paySignKey = signDigest vs2 paySignKey := by
  have hkeys : sortStrings (vs1.map Prod.fst)
      = sortStrings (vs2.map Prod.fst) := by
    apply List.eq_of_perm_of_sorted
      ((List.perm_insertionSort _ _).trans
        ((hp.map Prod.fst).trans (List.perm_insertionSort _ _).symm))
      (List.sorted_insertionSort _ _) (List.sorted_insertionSort _ _)
  have hg : getVals vs1 = getVals vs2 :=
    funext (getVals_perm vs1 vs2 hp hnd)
  unfold signDigest buildString
  rw [hkeys, hg]

/-- Witness for C3 at a concrete two-key permutation. -/
theorem c3_digest_key_order_independent_witness :
    ([("a", ["1"]), ("b", ["2"])] : ValuesM).Perm [("b", ["2"]), ("a", ["1"])] ∧
    (([("a", ["1"]), ("b", ["2"])] : ValuesM).map Prod.fst).Nodup ∧
    signDigest [("a", ["1"]), ("b", ["2"])] "k"
      = signDigest [("b", ["2"]), ("a", ["1"])] "k" :=
  ⟨by decide, by decide,
   c3_digest_key_order_independent [("a", ["1"]), ("b", ["2"])]
     [("b", ["2"]), ("a", ["1"])] "k" (by decide) (by decide)⟩

/-! ### Step-level lemmas used to analyse the extraction chain -/

theorem andThen_of_snd_none {r : NotifyURLData × Option GoErr}
    {f : NotifyURLData → NotifyURLData × Option GoErr} (h : r.2 = none) :
    andThen r f = f r.1 := by
  rcases r with ⟨d, _ | e⟩
  · rfl
  · exact absurd h (by simp)

theorem stepServiceVersion_char (vs : ValuesM) (d : NotifyURLData) :
    ∃ v, stepServiceVersion vs d = ({ d with ServiceVersion := v }, none) := by
  unfold stepServiceVersion
  cases firstVal vs "service_version" with
  | none => exact ⟨"1.0", rfl⟩
  | some v => exact ⟨v, rfl⟩

theorem stepCharset_char (vs : ValuesM) (d : NotifyURLData) :
    ∃ v, stepCharset vs d = ({ d with Charset := v }, none) := by
  unfold stepCharset
  cases firstVal vs "input_charset" with
  | none => exact ⟨NOTIFY_URL_DATA_CHARSET_GBK, rfl⟩
  | some v => exact ⟨v, rfl⟩

theorem stepSignType_char (vs : ValuesM) (d : NotifyURLData) :
    ∃ v, stepSignType vs d = ({ d with SignMethod := v }, none) := by
  unfold stepSignType
  cases firstVal vs "sign_type" with
  | none => exact ⟨NOTIFY_URL_DATA_SIGN_METHOD_MD5, rfl⟩
  | some v => exact ⟨v, rfl⟩

theorem stepPayInfo_snd (vs : ValuesM) (d : NotifyURLData) :
    (stepPayInfo vs d).2 = none := by
  unfold stepPayInfo
  cases headVal vs "pay_info" <;> rfl

theorem stepBankBillNo_snd (vs : ValuesM) (d : NotifyURLData) :
    (stepBankBillNo vs d).2 = none := by
  unfold stepBankBillNo
  cases headVal vs "bank_billno" <;> rfl

theorem stepAttach_snd (vs : ValuesM) (d : NotifyURLData) :
    (stepAttach vs d).2 = none := by
  unfold stepAttach
  cases headVal vs "attach" <;> rfl

theorem stepBuyerAlias_snd (vs : ValuesM) (d : NotifyURLData) :
    (stepBuyerAlias vs d).2 = none := by
  unfold stepBuyerAlias
  cases headVal vs "buyer_alias" <;> rfl

theorem andThen_stepPayInfo (vs : ValuesM) (d : NotifyURLData)
    (f : NotifyURLData → NotifyURLData × Option GoErr) :
    andThen (stepPayInfo vs d) f = f (stepPayInfo vs d).1 :=
  andThen_of_snd_none (stepPayInfo_snd vs d)

theorem andThen_stepBankBillNo (vs : ValuesM) (d : NotifyURLData)
    (f : NotifyURLData → NotifyURLData × Option GoErr) :
    andThen (stepBankBillNo vs d) f = f (stepBankBillNo vs d).1 :=
  andThen_of_snd_none (stepBankBillNo_snd vs d)

theorem andThen_stepAttach (vs : ValuesM) (d : NotifyURLData)
    (f : NotifyURLData → NotifyURLData × Option GoErr) :
    andThen (stepAttach vs d) f = f (stepAttach vs d).1 :=
  andThen_of_snd_none (stepAttach_snd vs d)

theorem stepPayInfo_TotalFee (vs : ValuesM) (d : NotifyURLData) :
    (stepPayInfo vs d).1.TotalFee = d.TotalFee := by
  unfold stepPayInfo
  cases headVal vs "pay_info" <;> rfl

theorem stepPayInfo_TransportFee (vs : ValuesM) (d : NotifyURLData) :
    (stepPayInfo vs d).1.TransportFee = d.TransportFee := by
  unfold stepPayInfo
  cases headVal vs "pay_info" <;> rfl

theorem stepPayInfo_ProductFee (vs : ValuesM) (d : NotifyURLData) :
    (stepPayInfo vs d).1.ProductFee = d.ProductFee := by
  unfold stepPayInfo
  cases headVal vs "pay_info" <;> rfl

theorem stepBankBillNo_TotalFee (vs : ValuesM) (d : NotifyURLData) :
    (stepBankBillNo vs d).1.TotalFee = d.TotalFee := by
  unfold stepBankBillNo
  cases headVal vs "bank_billno" <;> rfl

theorem stepBankBillNo_TransportFee (vs : ValuesM) (d : NotifyURLData) :
    (stepBankBillNo vs d).1.TransportFee = d.TransportFee := by
  unfold stepBankBillNo
  cases headVal vs "bank_billno" <;> rfl

theorem stepBankBillNo_ProductFee (vs : ValuesM) (d : NotifyURLData) :
    (stepBankBillNo vs d).1.ProductFee = d.ProductFee := by
  unfold stepBankBillNo
  cases headVal vs "bank_billno" <;> rfl

theorem stepAttach_TotalFee (vs : ValuesM) (d : NotifyURLData) :
    (stepAttach vs d).1.TotalFee = d.TotalFee := by
  unfold stepAttach
  cases headVal vs "attach" <;> rfl

theorem stepAttach_TransportFee (vs : ValuesM) (d : NotifyURLData) :
    (stepAttach vs d).1.TransportFee = d.TransportFee := by
  unfold stepAttach
  cases headVal vs "attach" <;> rfl

theorem stepAttach_ProductFee (vs : ValuesM) (d : NotifyURLData) :
    (stepAttach vs d).1.ProductFee = d.ProductFee := by
  unfold stepAttach
  cases headVal vs "attach" <;> rfl

/-! ### The business steps never touch the protocol fields -/

/-- The four protocol fields whose defaults C4 is about. -/
def proj4 (d : NotifyURLData) : String × String × String × Int :=
  (d.ServiceVersion, d.Charset, d.SignMethod, d.SignKeyIndex)

theorem andThen_proj4 {r : NotifyURLData × Option GoErr}
    {f : NotifyURLData → NotifyURLData × Option GoErr} {d : NotifyURLData}
    (h1 : proj4 r.1 = proj4 d) (h2 : ∀ x, proj4 (f x).1 = proj4 x) :
    proj4 (andThen r f).1 = proj4 d := by
  rcases r with ⟨d1, _ | e⟩
  · rw [andThen_none]
    exact (h2 d1).trans h1
  · rw [andThen_some]
    exact h1

theorem stepNotifyId_proj4 (vs : ValuesM) (d : NotifyURLData) :
    proj4 (stepNotifyId vs d).1 = proj4 d := by
  unfold stepNotifyId
  cases firstVal vs "notify_id" <;> rfl

theorem stepTradeMode_proj4 (vs : ValuesM) (d : NotifyURLData) :
    proj4 (stepTradeMode vs d).1 = proj4 d := by
  rcases h : firstVal vs "trade_mode" with _ | v
  · simp [stepTradeMode, h, proj4]
  · rcases h2 : goParseInt64 v with _ | n <;> simp [stepTradeMode, h, h2, proj4]

theorem stepTradeState_proj4 (vs : ValuesM) (d : NotifyURLData) :
    proj4 (stepTradeState vs d).1 = proj4 d := by
  rcases h : firstVal vs "trade_state" with _ | v
  · simp [stepTradeState, h, proj4]
  · rcases h2 : goParseInt64 v with _ | n <;> simp [stepTradeState, h, h2, proj4]

theorem stepPayInfo_proj4 (vs : ValuesM) (d : NotifyURLData) :
    proj4 (stepPayInfo vs d).1 = proj4 d := by
  unfold stepPayInfo
  cases headVal vs "pay_info" <;> rfl

theorem stepBankBillNo_proj4 (vs : ValuesM) (d : NotifyURLData) :
    proj4 (stepBankBillNo vs d).1 = proj4 d := by
  unfold stepBankBillNo
  cases headVal vs "bank_billno" <;> rfl

theorem stepTransactionId_proj4 (vs : ValuesM) (d : NotifyURLData) :
    proj4 (stepTransactionId vs d).1 = proj4 d := by
  unfold stepTransactionId
  cases firstVal vs "transaction_id" <;> rfl

theorem stepTimeEnd_proj4 (vs : ValuesM) (pt : String → Except String GoTime)
    (d : NotifyURLData) : proj4 (stepTimeEnd vs pt d).1 = proj4 d := by
  rcases h : firstVal vs "time_end" with _ | v
  · simp [stepTimeEnd, h, proj4]
  · rcases h2 : pt v with t | e <;> simp [stepTimeEnd, h, h2, proj4]

theorem stepBankType_proj4 (vs : ValuesM) (d : NotifyURLData) :
    proj4 (stepBankType vs d).1 = proj4 d := by
  unfold stepBankType
  cases firstVal vs "bank_type" <;> rfl

theorem stepPartner_proj4 (vs : ValuesM) (d : NotifyURLData) :
    proj4 (stepPartner vs d).1 = proj4 d := by
  unfold stepPartner
  cases firstVal vs "partner" <;> rfl

theorem stepOutTradeNo_proj4 (vs : ValuesM) (d : NotifyURLData) :
    proj4 (stepOutTradeNo vs d).1 = proj4 d := by
  unfold stepOutTradeNo
  cases firstVal vs "out_trade_no" <;> rfl

theorem stepAttach_proj4 (vs : ValuesM) (d : NotifyURLData) :
    proj4 (stepAttach vs d).1 = proj4 d := by
  unfold stepAttach
  cases headVal vs "attach" <;> rfl

theorem stepTotalFee_proj4 (vs : ValuesM) (d : NotifyURLData) :
    proj4 (stepTotalFee vs d).1 = proj4 d := by
  rcases h : firstVal vs "total_fee" with _ | v
  · simp [stepTotalFee, h, proj4]
  · rcases h2 : goParseInt64 v with _ | n <;> simp [stepTotalFee, h, h2, proj4]

theorem stepDiscount_proj4 (vs : ValuesM) (d : NotifyURLData) :
    proj4 (stepDiscount vs d).1 = proj4 d := by
  rcases h : firstVal vs "discount" with _ | v
  · simp [stepDiscount, h, proj4]
  · rcases h2 : goParseInt64 v with _ | n <;> simp [stepDiscount, h, h2, proj4]

theorem stepTransportFee_proj4 (vs : ValuesM) (d : NotifyURLData) :
    proj4 (stepTransportFee vs d).1 = proj4 d := by
  rcases h : firstVal vs "transport_fee" with _ | v
  · simp [stepTransportFee, h, proj4]
  · rcases h2 : goParseInt64 v with _ | n <;> simp [stepTransportFee, h, h2, proj4]

theorem stepProductFee_proj4 (vs : ValuesM) (d : NotifyURLData) :
    proj4 (stepProductFee vs d).1 = proj4 d := by
  rcases h : firstVal vs "product_fee" with _ | v
  · simp [stepProductFee, h, proj4]
  · rcases h2 : goParseInt64 v with _ | n <;> simp [stepProductFee, h, h2, proj4]

theorem stepFeeCheck_proj4 (d : NotifyURLData) :
    proj4 (stepFeeCheck d).1 = proj4 d := by
  unfold stepFeeCheck
  split
  · split <;> rfl
  · rfl

theorem stepFeeType_proj4 (vs : ValuesM) (d : NotifyURLData) :
    proj4 (stepFeeType vs d).1 = proj4 d := by
  rcases h : firstVal vs "fee_type" with _ | v
  · simp [stepFeeType, h, proj4]
  · rcases h2 : goParseInt64 v with _ | n <;> simp [stepFeeType, h, h2, proj4]

theorem stepBuyerAlias_proj4 (vs : ValuesM) (d : NotifyURLData) :
    proj4 (stepBuyerAlias vs d).1 = proj4 d := by
  unfold stepBuyerAlias
  cases headVal vs "buyer_alias" <;> rfl

theorem businessSteps_proj4 (vs : ValuesM)
    (pt : String → Except String GoTime) (d : NotifyURLData) :
    proj4 (businessSteps vs pt d).1 = proj4 d := by
  unfold businessSteps
  apply andThen_proj4 (stepNotifyId_proj4 vs d)
  intro x1
  apply andThen_proj4 (stepTradeMode_proj4 vs x1)
  intro x2
  apply andThen_proj4 (stepTradeState_proj4 vs x2)
  intro x3
  apply andThen_proj4 (stepPayInfo_proj4 vs x3)
  intro x4
  apply andThen_proj4 (stepBankBillNo_proj4 vs x4)
  intro x5
  apply andThen_proj4 (stepTransactionId_proj4 vs x5)
  intro x6
  apply andThen_proj4 (stepTimeEnd_proj4 vs pt x6)
  intro x7
  apply andThen_proj4 (stepBankType_proj4 vs x7)
  intro x8
  apply andThen_proj4 (stepPartner_proj4 vs x8)
  intro x9
  apply andThen_proj4 (stepOutTradeNo_proj4 vs x9)
  intro x10
  apply andThen_proj4 (stepAttach_proj4 vs x10)
  intro x11
  apply andThen_proj4 (stepTotalFee_proj4 vs x11)
  intro x12
  apply andThen_proj4 (stepDiscount_proj4 vs x12)
  intro x13
  apply andThen_proj4 (stepTransportFee_proj4 vs x13)
  intro x14
  apply andThen_proj4 (stepProductFee_proj4 vs x14)
  intro x15
  apply andThen_proj4 (stepFeeCheck_proj4 x15)
  intro x16
  apply andThen_proj4 (stepFeeType_proj4 vs x16)
  intro x17
  exact stepBuyerAlias_proj4 vs x17

/-! ### The protocol-extraction prefix -/

theorem protocolSteps_char (vs : ValuesM) (s0 : String) (d : NotifyURLData) :
    ∃ a b c i e, protocolSteps vs s0 d
      = ({ d with
            ServiceVersion := a
            Charset := b
            Signature := s0
            SignMethod := c
            SignKeyIndex := i }, e) := by
  unfold protocolSteps
  obtain ⟨v1, h1⟩ := stepServiceVersion_char vs d
  simp only [h1, andThen_none]
  obtain ⟨v2, h2⟩ := stepCharset_char vs { d with ServiceVersion := v1 }
  simp only [h2, andThen_none]
  simp only [stepSignature, andThen_none]
  obtain ⟨v3, h3⟩ := stepSignType_char vs
    { d with ServiceVersion := v1, Charset := v2, Signature := s0 }
  simp only [h3, andThen_none]
  rcases h4 : firstVal vs "sign_key_index" with _ | v
  · exact ⟨v1, v2, v3, 1, none, by simp [stepSignKeyIndex, h4]⟩
  · rcases h5 : goParseInt64 v with _ | n
    · exact ⟨v1, v2, v3, d.SignKeyIndex, some (GoErr.parseIntErr v),
        by simp [stepSignKeyIndex, h4, h5]⟩
    · exact ⟨v1, v2, v3, n, none, by simp [stepSignKeyIndex, h4, h5]⟩

theorem protocolSteps_snd (vs : ValuesM) (s0 : String) (d : NotifyURLData)
    (hki : firstVal vs "sign_key_index" = none ∨
      ∃ v n, firstVal vs "sign_key_index" = some v ∧ goParseInt64 v = some n) :
    (protocolSteps vs s0 d).2 = none := by
  unfold protocolSteps
  obtain ⟨v1, h1⟩ := stepServiceVersion_char vs d
  simp only [h1, andThen_none]
  obtain ⟨v2, h2⟩ := stepCharset_char vs { d with ServiceVersion := v1 }
  simp only [h2, andThen_none]
  simp only [stepSignature, andThen_none]
  obtain ⟨v3, h3⟩ := stepSignType_char vs
    { d with ServiceVersion := v1, Charset := v2, Signature := s0 }
  simp only [h3, andThen_none]
  rcases hki with h | ⟨v, n, hv, hn⟩
  · simp [stepSignKeyIndex, h]
  · simp [stepSignKeyIndex, hv, hn]

theorem protocolSteps_TransportFee (vs : ValuesM) (s0 : String)
    (d : NotifyURLData) :
    (protocolSteps vs s0 d).1.TransportFee = d.TransportFee := by
  obtain ⟨a, b, c, i, e, h⟩ := protocolSteps_char vs s0 d
  rw [h]

theorem protocolSteps_ProductFee (vs : ValuesM) (s0 : String)
    (d : NotifyURLData) :
    (protocolSteps vs s0 d).1.ProductFee = d.ProductFee := by
  obtain ⟨a, b, c, i, e, h⟩ := protocolSteps_char vs s0 d
  rw [h]

theorem protocolSteps_defaults (vs : ValuesM) (s0 : String) (d : NotifyURLData)
    (hsv : firstVal vs "service_version" = none)
    (hcs : firstVal vs "input_charset" = none)
    (hst : firstVal vs "sign_type" = none)
    (hki : firstVal vs "sign_key_index" = none) :
    protocolSteps vs s0 d
      = ({ d with
            ServiceVersion := "1.0"
            Charset := NOTIFY_URL_DATA_CHARSET_GBK
            Signature := s0
            SignMethod := NOTIFY_URL_DATA_SIGN_METHOD_MD5
            SignKeyIndex := 1 }, none) := by
  simp [protocolSteps, stepServiceVersion, stepCharset, stepSignature,
    stepSignType, stepSignKeyIndex, hsv, hcs, hst, hki, andThen]

/-! ### Master characterisation of the business chain's outcome -/

theorem businessSteps_err (vs1 : ValuesM) (pt : String → Except String GoTime)
    (d : NotifyURLData) (tot t p : Int) (ftRes : Option GoErr)
    (hnid : ∃ v, firstVal vs1 "notify_id" = some v)
    (htm : ∃ v n, firstVal vs1 "trade_mode" = some v ∧ goParseInt64 v = some n)
    (hts : ∃ v n, firstVal vs1 "trade_state" = some v ∧ goParseInt64 v = some n)
    (htid : ∃ v, firstVal vs1 "transaction_id" = some v)
    (hte : ∃ v tm, firstVal vs1 "time_end" = some v ∧ pt v = Except.ok tm)
    (hbt : ∃ v, firstVal vs1 "bank_type" = some v)
    (hpart : ∃ v, firstVal vs1 "partner" = some v)
    (hotn : ∃ v, firstVal vs1 "out_trade_no" = some v)
    (htf : ∃ v, firstVal vs1 "total_fee" = some v ∧ goParseInt64 v = some tot)
    (hdisc : firstVal vs1 "discount" = none ∨
      ∃ v n, firstVal vs1 "discount" = some v ∧ goParseInt64 v = some n)
    (htr : (firstVal vs1 "transport_fee" = none ∧ t = d.TransportFee) ∨
      ∃ v, firstVal vs1 "transport_fee" = some v ∧ goParseInt64 v = some t)
    (hpr : (firstVal vs1 "product_fee" = none ∧ p = d.ProductFee) ∨
      ∃ v, firstVal vs1 "product_fee" = some v ∧ goParseInt64 v = some p)
    (hft : ∀ x : NotifyURLData,
      (andThen (stepFeeType vs1 x) fun y => stepBuyerAlias vs1 y).2 = ftRes) :
    (businessSteps vs1 pt d).2
      = if t ≠ 0 ∨ p ≠ 0 then
          (if addInt64 t p ≠ tot then some GoErr.inconsistentFees else ftRes)
        else ftRes := by
  obtain ⟨nid, hnid⟩ := hnid
  obtain ⟨tmv, tmn, htm1, htm2⟩ := htm
  obtain ⟨tsv, tsn, hts1, hts2⟩ := hts
  obtain ⟨tid, htid⟩ := htid
  obtain ⟨tev, tet, hte1, hte2⟩ := hte
  obtain ⟨btv, hbt⟩ := hbt
  obtain ⟨pav, hpart⟩ := hpart
  obtain ⟨otv, hotn⟩ := hotn
  obtain ⟨tfv, htf1, htf2⟩ := htf
  have hpi : ∀ x : NotifyURLData, stepPayInfo vs1 x
      = ({ x with PayInfo := (headVal vs1 "pay_info").getD x.PayInfo }, none) := by
    intro x
    rcases h : headVal vs1 "pay_info" with _ | v <;> simp [stepPayInfo, h]
  have hbb : ∀ x : NotifyURLData, stepBankBillNo vs1 x
      = ({ x with BankBillNo := (headVal vs1 "bank_billno").getD x.BankBillNo },
         none) := by
    intro x
    rcases h : headVal vs1 "bank_billno" with _ | v <;> simp [stepBankBillNo, h]
  have hat : ∀ x : NotifyURLData, stepAttach vs1 x
      = ({ x with Attach := (headVal vs1 "attach").getD x.Attach }, none) := by
    intro x
    rcases h : headVal vs1 "attach" with _ | v <;> simp [stepAttach, h]
  have hdis : ∀ x : NotifyURLData, stepDiscount vs1 x
      = ({ x with Discount :=
            ((firstVal vs1 "discount").bind goParseInt64).getD x.Discount },
         none) := by
    intro x
    rcases hdisc with h | ⟨v, n, h1, h2⟩
    · simp [stepDiscount, h]
    · simp [stepDiscount, h1, h2]
  have htrs : ∀ x : NotifyURLData, x.TransportFee = d.TransportFee →
      stepTransportFee vs1 x = ({ x with TransportFee := t }, none) := by
    intro x hx
    rcases htr with ⟨h0, h1⟩ | ⟨v, h0, h1⟩
    · rw [h1, ← hx]
      simp [stepTransportFee, h0]
    · simp [stepTransportFee, h0, h1]
  have hprs : ∀ x : NotifyURLData, x.ProductFee = d.ProductFee →
      stepProductFee vs1 x = ({ x with ProductFee := p }, none) := by
    intro x hx
    rcases hpr with ⟨h0, h1⟩ | ⟨v, h0, h1⟩
    · rw [h1, ← hx]
      simp [stepProductFee, h0]
    · simp [stepProductFee, h0, h1]
  simp only [businessSteps,
    stepNotifyId, hnid,
    stepTradeMode, htm1, htm2,
    stepTradeState, hts1, hts2,
    hpi, hbb,
    stepTransactionId, htid,
    stepTimeEnd, hte1, hte2,
    stepBankType, hbt,
    stepPartner, hpart,
    stepOutTradeNo, hotn,
    hat,
    stepTotalFee, htf1, htf2,
    hdis, htrs, hprs,
    stepFeeCheck,
    andThen_none]
  split_ifs with h1 h2 <;> simp only [andThen_some, andThen_none] <;>
    first
    | rfl
    | exact hft _

/-! ### C4, C5, C6: behaviour on correctly signed, field-wise valid input -/

/-- C4: on a correctly signed parameter set whose required business fields
are present and parse (an otherwise-valid payload) and in which
`service_version`, `input_charset`, `sign_type` and `sign_key_index` are
absent or empty, `CheckAndInit` succeeds and sets the defaults
`ServiceVersion = "1.0"`, `Charset = "GBK"`, `SignMethod = "MD5"`,
`SignKeyIndex = 1`. -/
theorem c4_protocol_defaults (vs : ValuesM) (paySignKey : String)
    (pt : String → Except String GoTime) (tot t p : Int)
    (hsign : firstVal vs "sign" = some (signDigest (delSign vs) paySignKey))
    (hsv : firstVal vs "service_version" = none)
    (hcs : firstVal vs "input_charset" = none)
    (hst : firstVal vs "sign_type" = none)
    (hki : firstVal vs "sign_key_index" = none)
    (hnid : ∃ v, firstVal vs "notify_id" = some v)
    (htm : ∃ v n, firstVal vs "trade_mode" = some v ∧ goParseInt64 v = some n)
    (hts : ∃ v n, firstVal vs "trade_state" = some v ∧ goParseInt64 v = some n)
    (htid : ∃ v, firstVal vs "transaction_id" = some v)
    (hte : ∃ v tm, firstVal vs "time_end" = some v ∧ pt v = Except.ok tm)
    (hbt : ∃ v, firstVal vs "bank_type" = some v)
    (hpart : ∃ v, firstVal vs "partner" = some v)
    (hotn : ∃ v, firstVal vs "out_trade_no" = some v)
    (htf : ∃ v, firstVal vs "total_fee" = some v ∧ goParseInt64 v = some tot)
    (hdisc : firstVal vs "discount" = none ∨
      ∃ v n, firstVal vs "discount" = some v ∧ goParseInt64 v = some n)
    (htr : (firstVal vs "transport_fee" = none ∧ t = 0) ∨
      ∃ v, firstVal vs "transport_fee" = some v ∧ goParseInt64 v = some t)
    (hpr : (firstVal vs "product_fee" = none ∧ p = 0) ∨
      ∃ v, firstVal vs "product_fee" = some v ∧ goParseInt64 v = some p)
    (hft : ∃ v n, firstVal vs "fee_type" = some v ∧ goParseInt64 v = some n)
    (hfee : (t ≠ 0 ∨ p ≠ 0) → t + p = tot) :
    (checkAndInit zeroNotifyURLData (some vs) paySignKey pt).2.2 = none ∧
    (checkAndInit zeroNotifyURLData (some vs) paySignKey
        pt).1.ServiceVersion = "1.0" ∧
    (checkAndInit zeroNotifyURLData (some vs) paySignKey pt).1.Charset
      = "GBK" ∧
    (checkAndInit zeroNotifyURLData (some vs) paySignKey pt).1.SignMethod
      = "MD5" ∧
    (checkAndInit zeroNotifyURLData (some vs) paySignKey pt).1.SignKeyIndex
      = 1 := by
  have e0 : firstVal (delSign vs) "service_version"
      = firstVal vs "service_version" := firstVal_delSign vs _ (by decide)
  have e1 : firstVal (delSign vs) "input_charset"
      = firstVal vs "input_charset" := firstVal_delSign vs _ (by decide)
  have e2 : firstVal (delSign vs) "sign_type" = firstVal vs "sign_type" :=
    firstVal_delSign vs _ (by decide)
  have e3 : firstVal (delSign vs) "sign_key_index"
      = firstVal vs "sign_key_index" := firstVal_delSign vs _ (by decide)
  have e4 : firstVal (delSign vs) "notify_id" = firstVal vs "notify_id" :=
    firstVal_delSign vs _ (by decide)
  have e5 : firstVal (delSign vs) "trade_mode" = firstVal vs "trade_mode" :=
    firstVal_delSign vs _ (by decide)
  have e6 : firstVal (delSign vs) "trade_state" = firstVal vs "trade_state" :=
    firstVal_delSign vs _ (by decide)
  have e7 : firstVal (delSign vs) "transaction_id"
      = firstVal vs "transaction_id" := firstVal_delSign vs _ (by decide)
  have e8 : firstVal (delSign vs) "time_end" = firstVal vs "time_end" :=
    firstVal_delSign vs _ (by decide)
  have e9 : firstVal (delSign vs) "bank_type" = firstVal vs "bank_type" :=
    firstVal_delSign vs _ (by decide)
  have e10 : firstVal (delSign vs) "partner" = firstVal vs "partner" :=
    firstVal_delSign vs _ (by decide)
  have e11 : firstVal (delSign vs) "out_trade_no"
      = firstVal vs "out_trade_no" := firstVal_delSign vs _ (by decide)
  have e12 : firstVal (delSign vs) "total_fee" = firstVal vs "total_fee" :=
    firstVal_delSign vs _ (by decide)
  have e13 : firstVal (delSign vs) "discount" = firstVal vs "discount" :=
    firstVal_delSign vs _ (by decide)
  have e14 : firstVal (delSign vs) "transport_fee"
      = firstVal vs "transport_fee" := firstVal_delSign vs _ (by decide)
  have e15 : firstVal (delSign vs) "product_fee"
      = firstVal vs "product_fee" := firstVal_delSign vs _ (by decide)
  have e16 : firstVal (delSign vs) "fee_type" = firstVal vs "fee_type" :=
    firstVal_delSign vs _ (by decide)
  rw [← e0] at hsv
  rw [← e1] at hcs
  rw [← e2] at hst
  rw [← e3] at hki
  rw [← e4] at hnid
  rw [← e5] at htm
  rw [← e6] at hts
  rw [← e7] at htid
  rw [← e8] at hte
  rw [← e9] at hbt
  rw [← e10] at hpart
  rw [← e11] at hotn
  rw [← e12] at htf
  rw [← e13] at hdisc
  rw [← e14] at htr
  rw [← e15] at hpr
  rw [← e16] at hft
  have hdef := protocolSteps_defaults (delSign vs)
    (signDigest (delSign vs) paySignKey) zeroNotifyURLData hsv hcs hst hki
  have hft2 : ∀ x : NotifyURLData,
      (andThen (stepFeeType (delSign vs) x)
        fun y => stepBuyerAlias (delSign vs) y).2 = none := by
    obtain ⟨fv, fn, hf1, hf2⟩ := hft
    intro x
    simp [stepFeeType, hf1, hf2, andThen_none, stepBuyerAlias_snd]
  have hmaster := businessSteps_err (delSign vs) pt
    { zeroNotifyURLData with
        ServiceVersion := "1.0"
        Charset := NOTIFY_URL_DATA_CHARSET_GBK
        Signature := signDigest (delSign vs) paySignKey
        SignMethod := NOTIFY_URL_DATA_SIGN_METHOD_MD5
        SignKeyIndex := 1 }
    tot t p none hnid htm hts htid hte hbt hpart hotn htf hdisc
    (by
      rcases htr with ⟨h0, h1⟩ | h
      · exact Or.inl ⟨h0, h1⟩
      · exact Or.inr h)
    (by
      rcases hpr with ⟨h0, h1⟩ | h
      · exact Or.inl ⟨h0, h1⟩
      · exact Or.inr h)
    hft2
  have htotr : -(2 ^ 63) ≤ tot ∧ tot ≤ 2 ^ 63 - 1 := by
    obtain ⟨tfv, htf1, htf2⟩ := htf
    exact goParseInt64_range tfv tot htf2
  have hifeval : (if t ≠ 0 ∨ p ≠ 0 then
      (if addInt64 t p ≠ tot then some GoErr.inconsistentFees else none)
      else none) = (none : Option GoErr) := by
    by_cases hc : t ≠ 0 ∨ p ≠ 0
    · have hsum : addInt64 t p = tot := by
        rw [addInt64_eq_of_range t p (by rw [hfee hc]; exact htotr.1)
          (by rw [hfee hc]; exact htotr.2)]
        exact hfee hc
      rw [if_pos hc, if_neg (not_not_intro hsum)]
    · rw [if_neg hc]
  have hred2 : (checkAndInit zeroNotifyURLData (some vs) paySignKey pt).2.2
      = (businessSteps (delSign vs) pt
          { zeroNotifyURLData with
              ServiceVersion := "1.0"
              Charset := NOTIFY_URL_DATA_CHARSET_GBK
              Signature := signDigest (delSign vs) paySignKey
              SignMethod := NOTIFY_URL_DATA_SIGN_METHOD_MD5
              SignKeyIndex := 1 }).2 := by
    simp only [checkAndInit, hsign]
    rw [if_true, hdef, andThen_none]
  have hred1 : (checkAndInit zeroNotifyURLData (some vs) paySignKey pt).1
      = (businessSteps (delSign vs) pt
          { zeroNotifyURLData with
              ServiceVersion := "1.0"
              Charset := NOTIFY_URL_DATA_CHARSET_GBK
              Signature := signDigest (delSign vs) paySignKey
              SignMethod := NOTIFY_URL_DATA_SIGN_METHOD_MD5
              SignKeyIndex := 1 }).1 := by
    simp only [checkAndInit, hsign]
    rw [if_true, hdef, andThen_none]
  have hp := businessSteps_proj4 (delSign vs) pt
    { zeroNotifyURLData with
        ServiceVersion := "1.0"
        Charset := NOTIFY_URL_DATA_CHARSET_GBK
        Signature := signDigest (delSign vs) paySignKey
        SignMethod := NOTIFY_URL_DATA_SIGN_METHOD_MD5
        SignKeyIndex := 1 }
  refine ⟨hred2.trans (hmaster.trans hifeval), ?_, ?_, ?_, ?_⟩
  · rw [hred1]
    exact congrArg (fun q => q.1) hp
  · rw [hred1]
    exact congrArg (fun q => q.2.1) hp
  · rw [hred1]
    exact congrArg (fun q => q.2.2.1) hp
  · rw [hred1]
    exact congrArg (fun q => q.2.2.2) hp

/-- C5 (amended): on a correctly signed, otherwise-valid parameter set
whose fee fields parse to `t` (transport), `p` (product) and `tot`
(total) — absent optional fees counting as `0` on a fresh record — the
decoder fails with the `InconsistentFees` error exactly when `t` or `p`
is non-zero and the Go 64-bit wrapping sum `addInt64 t p` differs from
`tot`; when `addInt64 t p = tot`, and likewise whenever both `t` and `p`
are zero or absent, the check passes and decoding succeeds (in
particular 30/70/100 passes and 30/70/90 fails, where no overflow occurs
and the wrapping sum is the ordinary sum). -/
theorem c5_fee_invariant (vs : ValuesM) (paySignKey : String)
    (pt : String → Except String GoTime) (tot t p : Int)
    (hsign : firstVal vs "sign" = some (signDigest (delSign vs) paySignKey))
    (hki : firstVal vs "sign_key_index" = none ∨
      ∃ v n, firstVal vs "sign_key_index" = some v ∧ goParseInt64 v = some n)
    (hnid : ∃ v, firstVal vs "notify_id" = some v)
    (htm : ∃ v n, firstVal vs "trade_mode" = some v ∧ goParseInt64 v = some n)
    (hts : ∃ v n, firstVal vs "trade_state" = some v ∧ goParseInt64 v = some n)
    (htid : ∃ v, firstVal vs "transaction_id" = some v)
    (hte : ∃ v tm, firstVal vs "time_end" = some v ∧ pt v = Except.ok tm)
    (hbt : ∃ v, firstVal vs "bank_type" = some v)
    (hpart : ∃ v, firstVal vs "partner" = some v)
    (hotn : ∃ v, firstVal vs "out_trade_no" = some v)
    (htf : ∃ v, firstVal vs "total_fee" = some v ∧ goParseInt64 v = some tot)
    (hdisc : firstVal vs "discount" = none ∨
      ∃ v n, firstVal vs "discount" = some v ∧ goParseInt64 v = some n)
    (htr : (firstVal vs "transport_fee" = none ∧ t = 0) ∨
      ∃ v, firstVal vs "transport_fee" = some v ∧ goParseInt64 v = some t)
    (hpr : (firstVal vs "product_fee" = none ∧ p = 0) ∨
      ∃ v, firstVal vs "product_fee" = some v ∧ goParseInt64 v = some p)
    (hft : ∃ v n, firstVal vs "fee_type" = some v ∧ goParseInt64 v = some n) :
    ((t ≠ 0 ∨ p ≠ 0) → addInt64 t p ≠ tot →
      (checkAndInit zeroNotifyURLData (some vs) paySignKey pt).2.2
        = some GoErr.inconsistentFees) ∧
    ((t ≠ 0 ∨ p ≠ 0) → addInt64 t p = tot →
      (checkAndInit zeroNotifyURLData (some vs) paySignKey pt).2.2 = none) ∧
    (t = 0 → p = 0 →
      (checkAndInit zeroNotifyURLData (some vs) paySignKey pt).2.2
        = none) := by
  have e3 : firstVal (delSign vs) "sign_key_index"
      = firstVal vs "sign_key_index" := firstVal_delSign vs _ (by decide)
  have e4 : firstVal (delSign vs) "notify_id" = firstVal vs "notify_id" :=
    firstVal_delSign vs _ (by decide)
  have e5 : firstVal (delSign vs) "trade_mode" = firstVal vs "trade_mode" :=
    firstVal_delSign vs _ (by decide)
  have e6 : firstVal (delSign vs) "trade_state" = firstVal vs "trade_state" :=
    firstVal_delSign vs _ (by decide)
  have e7 : firstVal (delSign vs) "transaction_id"
      = firstVal vs "transaction_id" := firstVal_delSign vs _ (by decide)
  have e8 : firstVal (delSign vs) "time_end" = firstVal vs "time_end" :=
    firstVal_delSign vs _ (by decide)
  have e9 : firstVal (delSign vs) "bank_type" = firstVal vs "bank_type" :=
    firstVal_delSign vs _ (by decide)
  have e10 : firstVal (delSign vs) "partner" = firstVal vs "partner" :=
    firstVal_delSign vs _ (by decide)
  have e11 : firstVal (delSign vs) "out_trade_no"
      = firstVal vs "out_trade_no" := firstVal_delSign vs _ (by decide)
  have e12 : firstVal (delSign vs) "total_fee" = firstVal vs "total_fee" :=
    firstVal_delSign vs _ (by decide)
  have e13 : firstVal (delSign vs) "discount" = firstVal vs "discount" :=
    firstVal_delSign vs _ (by decide)
  have e14 : firstVal (delSign vs) "transport_fee"
      = firstVal vs "transport_fee" := firstVal_delSign vs _ (by decide)
  have e15 : firstVal (delSign vs) "product_fee"
      = firstVal vs "product_fee" := firstVal_delSign vs _ (by decide)
  have e16 : firstVal (delSign vs) "fee_type" = firstVal vs "fee_type" :=
    firstVal_delSign vs _ (by decide)
  rw [← e3] at hki
  rw [← e4] at hnid
  rw [← e5] at htm
  rw [← e6] at hts
  rw [← e7] at htid
  rw [← e8] at hte
  rw [← e9] at hbt
  rw [← e10] at hpart
  rw [← e11] at hotn
  rw [← e12] at htf
  rw [← e13] at hdisc
  rw [← e14] at htr
  rw [← e15] at hpr
  rw [← e16] at hft
  have hsnd := protocolSteps_snd (delSign vs)
    (signDigest (delSign vs) paySignKey) zeroNotifyURLData hki
  have hTF : (protocolSteps (delSign vs) (signDigest (delSign vs) paySignKey)
      zeroNotifyURLData).1.TransportFee = 0 :=
    protocolSteps_TransportFee _ _ _
  have hPF : (protocolSteps (delSign vs) (signDigest (delSign vs) paySignKey)
      zeroNotifyURLData).1.ProductFee = 0 :=
    protocolSteps_ProductFee _ _ _
  have hft2 : ∀ x : NotifyURLData,
      (andThen (stepFeeType (delSign vs) x)
        fun y => stepBuyerAlias (delSign vs) y).2 = none := by
    obtain ⟨fv, fn, hf1, hf2⟩ := hft
    intro x
    simp [stepFeeType, hf1, hf2, andThen_none, stepBuyerAlias_snd]
  have hmaster := businessSteps_err (delSign vs) pt
    (protocolSteps (delSign vs) (signDigest (delSign vs) paySignKey)
      zeroNotifyURLData).1
    tot t p none hnid htm hts htid hte hbt hpart hotn htf hdisc
    (by
      rcases htr with ⟨h0, h1⟩ | h
      · exact Or.inl ⟨h0, h1.trans hTF.symm⟩
      · exact Or.inr h)
    (by
      rcases hpr with ⟨h0, h1⟩ | h
      · exact Or.inl ⟨h0, h1.trans hPF.symm⟩
      · exact Or.inr h)
    hft2
  have hred : (checkAndInit zeroNotifyURLData (some vs) paySignKey pt).2.2
      = (businessSteps (delSign vs) pt
          (protocolSteps (delSign vs) (signDigest (delSign vs) paySignKey)
            zeroNotifyURLData).1).2 := by
    simp only [checkAndInit, hsign]
    rw [if_true, andThen_of_snd_none hsnd]
  have hfin := hred.trans hmaster
  refine ⟨fun h1 h2 => ?_, fun h1 h2 => ?_, fun h1 h2 => ?_⟩
  · rw [hfin, if_pos h1, if_pos h2]
  · rw [hfin, if_pos h1, if_neg (not_not_intro h2)]
  · rw [hfin, if_neg ?_]
    rintro (h3 | h3)
    · exact h3 h1
    · exact h3 h2

/-- C6 counterexample: a correctly signed, otherwise fully valid
parameter set without `fee_type` is rejected with the `fee_type is empty`
error — no default currency code 1 is applied and `CheckAndInit` does not
succeed. -/
theorem c6_fee_type_required_counterexample :
    (checkAndInit zeroNotifyURLData
        (some [("sign", ["66D0F4F2A690B7DFDE88ADA654D249AC"]),
          ("notify_id", ["N1"]), ("trade_mode", ["1"]),
          ("trade_state", ["0"]),
          ("transaction_id", ["1234567890200901010000000001"]),
          ("time_end", ["20090101000000"]), ("bank_type", ["WX"]),
          ("partner", ["P1"]), ("out_trade_no", ["T1"]),
          ("total_fee", ["100"])]) "secret" ptOk).2.2
      = some GoErr.feeTypeEmpty ∧
    some GoErr.feeTypeEmpty ≠ (none : Option GoErr) := by
  refine ⟨?_, by decide⟩
  decide

/-- C6 (amended): on a correctly signed, otherwise-valid parameter set in
which `fee_type` is absent or empty, `CheckAndInit` fails with the
`fee_type is empty` (`MissingField(fee_type)`) error instead of applying
a default. -/
theorem c6_amended_fee_type_required (vs : ValuesM) (paySignKey : String)
    (pt : String → Except String GoTime) (tot t p : Int)
    (hsign : firstVal vs "sign" = some (signDigest (delSign vs) paySignKey))
    (hki : firstVal vs "sign_key_index" = none ∨
      ∃ v n, firstVal vs "sign_key_index" = some v ∧ goParseInt64 v = some n)
    (hnid : ∃ v, firstVal vs "notify_id" = some v)
    (htm : ∃ v n, firstVal vs "trade_mode" = some v ∧ goParseInt64 v = some n)
    (hts : ∃ v n, firstVal vs "trade_state" = some v ∧ goParseInt64 v = some n)
    (htid : ∃ v, firstVal vs "transaction_id" = some v)
    (hte : ∃ v tm, firstVal vs "time_end" = some v ∧ pt v = Except.ok tm)
    (hbt : ∃ v, firstVal vs "bank_type" = some v)
    (hpart : ∃ v, firstVal vs "partner" = some v)
    (hotn : ∃ v, firstVal vs "out_trade_no" = some v)
    (htf : ∃ v, firstVal vs "total_fee" = some v ∧ goParseInt64 v = some tot)
    (hdisc : firstVal vs "discount" = none ∨
      ∃ v n, firstVal vs "discount" = some v ∧ goParseInt64 v = some n)
    (htr : (firstVal vs "transport_fee" = none ∧ t = 0) ∨
      ∃ v, firstVal vs "transport_fee" = some v ∧ goParseInt64 v = some t)
    (hpr : (firstVal vs "product_fee" = none ∧ p = 0) ∨
      ∃ v, firstVal vs "product_fee" = some v ∧ goParseInt64 v = some p)
    (hftn : firstVal vs "fee_type" = none)
    (hfee : (t ≠ 0 ∨ p ≠ 0) → t + p = tot) :
    (checkAndInit zeroNotifyURLData (some vs) paySignKey pt).2.2
      = some GoErr.feeTypeEmpty := by
  have e3 : firstVal (delSign vs) "sign_key_index"
      = firstVal vs "sign_key_index" := firstVal_delSign vs _ (by decide)
  have e4 : firstVal (delSign vs) "notify_id" = firstVal vs "notify_id" :=
    firstVal_delSign vs _ (by decide)
  have e5 : firstVal (delSign vs) "trade_mode" = firstVal vs "trade_mode" :=
    firstVal_delSign vs _ (by decide)
  have e6 : firstVal (delSign vs) "trade_state" = firstVal vs "trade_state" :=
    firstVal_delSign vs _ (by decide)
  have e7 : firstVal (delSign vs) "transaction_id"
      = firstVal vs "transaction_id" := firstVal_delSign vs _ (by decide)
  have e8 : firstVal (delSign vs) "time_end" = firstVal vs "time_end" :=
    firstVal_delSign vs _ (by decide)
  have e9 : firstVal (delSign vs) "bank_type" = firstVal vs "bank_type" :=
    firstVal_delSign vs _ (by decide)
  have e10 : firstVal (delSign vs) "partner" = firstVal vs "partner" :=
    firstVal_delSign vs _ (by decide)
  have e11 : firstVal (delSign vs) "out_trade_no"
      = firstVal vs "out_trade_no" := firstVal_delSign vs _ (by decide)
  have e12 : firstVal (delSign vs) "total_fee" = firstVal vs "total_fee" :=
    firstVal_delSign vs _ (by decide)
  have e13 : firstVal (delSign vs) "discount" = firstVal vs "discount" :=
    firstVal_delSign vs _ (by decide)
  have e14 : firstVal (delSign vs) "transport_fee"
      = firstVal vs "transport_fee" := firstVal_delSign vs _ (by decide)
  have e15 : firstVal (delSign vs) "product_fee"
      = firstVal vs "product_fee" := firstVal_delSign vs _ (by decide)
  have e16 : firstVal (delSign vs) "fee_type" = firstVal vs "fee_type" :=
    firstVal_delSign vs _ (by decide)
  rw [← e3] at hki
  rw [← e4] at hnid
  rw [← e5] at htm
  rw [← e6] at hts
  rw [← e7] at htid
  rw [← e8] at hte
  rw [← e9] at hbt
  rw [← e10] at hpart
  rw [← e11] at hotn
  rw [← e12] at htf
  rw [← e13] at hdisc
  rw [← e14] at htr
  rw [← e15] at hpr
  rw [← e16] at hftn
  have hsnd := protocolSteps_snd (delSign vs)
    (signDigest (delSign vs) paySignKey) zeroNotifyURLData hki
  have hTF : (protocolSteps (delSign vs) (signDigest (delSign vs) paySignKey)
      zeroNotifyURLData).1.TransportFee = 0 :=
    protocolSteps_TransportFee _ _ _
  have hPF : (protocolSteps (delSign vs) (signDigest (delSign vs) paySignKey)
      zeroNotifyURLData).1.ProductFee = 0 :=
    protocolSteps_ProductFee _ _ _
  have hft2 : ∀ x : NotifyURLData,
      (andThen (stepFeeType (delSign vs) x)
        fun y => stepBuyerAlias (delSign vs) y).2
        = some GoErr.feeTypeEmpty := by
    intro x
    simp [stepFeeType, hftn, andThen_some]
  have hmaster := businessSteps_err (delSign vs) pt
    (protocolSteps (delSign vs) (signDigest (delSign vs) paySignKey)
      zeroNotifyURLData).1
    tot t p (some GoErr.feeTypeEmpty) hnid htm hts htid hte hbt hpart hotn
    htf hdisc
    (by
      rcases htr with ⟨h0, h1⟩ | h
      · exact Or.inl ⟨h0, h1.trans hTF.symm⟩
      · exact Or.inr h)
    (by
      rcases hpr with ⟨h0, h1⟩ | h
      · exact Or.inl ⟨h0, h1.trans hPF.symm⟩
      · exact Or.inr h)
    hft2
  have hred : (checkAndInit zeroNotifyURLData (some vs) paySignKey pt).2.2
      = (businessSteps (delSign vs) pt
          (protocolSteps (delSign vs) (signDigest (delSign vs) paySignKey)
            zeroNotifyURLData).1).2 := by
    simp only [checkAndInit, hsign]
    rw [if_true, andThen_of_snd_none hsnd]
  have hfin := hred.trans hmaster
  by_cases hc : t ≠ 0 ∨ p ≠ 0
  · have htotr : -(2 ^ 63) ≤ tot ∧ tot ≤ 2 ^ 63 - 1 := by
      obtain ⟨tfv, htf1, htf2⟩ := htf
      exact goParseInt64_range tfv tot htf2
    have hsum : addInt64 t p = tot := by
      rw [addInt64_eq_of_range t p (by rw [hfee hc]; exact htotr.1)
        (by rw [hfee hc]; exact htotr.2)]
      exact hfee hc
    rw [hfin, if_pos hc, if_neg (not_not_intro hsum)]
  · rw [hfin, if_neg hc]

/-- A fully valid parameter set for key `"secret"` with all four protocol
parameters omitted and no optional fee fields (its `sign` is the correct
canonical digest). -/
def validParams : ValuesM :=
  [("sign", ["2C5FDAE63617CE66BD7260B802A7ABDD"]),
   ("notify_id", ["N1"]), ("trade_mode", ["1"]), ("trade_state", ["0"]),
   ("transaction_id", ["1234567890200901010000000001"]),
   ("time_end", ["20090101000000"]), ("bank_type", ["WX"]),
   ("partner", ["P1"]), ("out_trade_no", ["T1"]),
   ("total_fee", ["100"]), ("fee_type", ["1"])]

/-- `validParams` with `transport_fee=30`, `product_fee=70`,
`total_fee=100` (consistent fees), correctly signed for `"secret"`. -/
def feeParamsGood : ValuesM :=
  [("sign", ["73DEAF7A2B9D035E7212ACB73A04A7CA"]),
   ("notify_id", ["N1"]), ("trade_mode", ["1"]), ("trade_state", ["0"]),
   ("transaction_id", ["1234567890200901010000000001"]),
   ("time_end", ["20090101000000"]), ("bank_type", ["WX"]),
   ("partner", ["P1"]), ("out_trade_no", ["T1"]),
   ("total_fee", ["100"]), ("fee_type", ["1"]),
   ("transport_fee", ["30"]), ("product_fee", ["70"])]

/-- `feeParamsGood` with `total_fee=90` (inconsistent fees), correctly
signed for `"secret"`. -/
def feeParamsBad : ValuesM :=
  [("sign", ["E082CDEFDBAEA208963884ED207FB3E2"]),
   ("notify_id", ["N1"]), ("trade_mode", ["1"]), ("trade_state", ["0"]),
   ("transaction_id", ["1234567890200901010000000001"]),
   ("time_end", ["20090101000000"]), ("bank_type", ["WX"]),
   ("partner", ["P1"]), ("out_trade_no", ["T1"]),
   ("total_fee", ["90"]), ("fee_type", ["1"]),
   ("transport_fee", ["30"]), ("product_fee", ["70"])]

/-- `validParams` without `fee_type`, correctly signed for `"secret"`. -/
def noFeeTypeParams : ValuesM :=
  [("sign", ["66D0F4F2A690B7DFDE88ADA654D249AC"]),
   ("notify_id", ["N1"]), ("trade_mode", ["1"]), ("trade_state", ["0"]),
   ("transaction_id", ["1234567890200901010000000001"]),
   ("time_end", ["20090101000000"]), ("bank_type", ["WX"]),
   ("partner", ["P1"]), ("out_trade_no", ["T1"]),
   ("total_fee", ["100"])]

/-- Witness for C4 at `validParams`. -/
theorem c4_protocol_defaults_witness :
    firstVal validParams "sign"
      = some (signDigest (delSign validParams) "secret") ∧
    ((checkAndInit zeroNotifyURLData (some validParams) "secret"
        ptOk).2.2 = none ∧
     (checkAndInit zeroNotifyURLData (some validParams) "secret"
        ptOk).1.ServiceVersion = "1.0" ∧
     (checkAndInit zeroNotifyURLData (some validParams) "secret"
        ptOk).1.Charset = "GBK" ∧
     (checkAndInit zeroNotifyURLData (some validParams) "secret"
        ptOk).1.SignMethod = "MD5" ∧
     (checkAndInit zeroNotifyURLData (some validParams) "secret"
        ptOk).1.SignKeyIndex = 1) :=
  ⟨by decide,
   c4_protocol_defaults validParams "secret" ptOk 100 0 0 (by decide)
     (by decide) (by decide) (by decide) (by decide)
     ⟨"N1", by decide⟩ ⟨"1", 1, by decide, by decide⟩
     ⟨"0", 0, by decide, by decide⟩
     ⟨"1234567890200901010000000001", by decide⟩
     ⟨"20090101000000", { raw := "20090101000000" }, by decide, rfl⟩
     ⟨"WX", by decide⟩ ⟨"P1", by decide⟩ ⟨"T1", by decide⟩
     ⟨"100", by decide, by decide⟩ (Or.inl (by decide))
     (Or.inl ⟨by decide, rfl⟩) (Or.inl ⟨by decide, rfl⟩)
     ⟨"1", 1, by decide, by decide⟩
     (fun h => ((by decide : ¬((0 : Int) ≠ 0 ∨ (0 : Int) ≠ 0)) h).elim)⟩

/-- `validParams` with `transport_fee` at the `int64` maximum,
`product_fee=1` and `total_fee` at the `int64` minimum: the Go 64-bit
sum wraps to exactly `total_fee`, correctly signed for `"secret"`. -/
def overflowFeeParams : ValuesM :=
  [("sign", ["5802816748D8E20313FDCB220499ABE5"]),
   ("notify_id", ["N1"]), ("trade_mode", ["1"]), ("trade_state", ["0"]),
   ("transaction_id", ["1234567890200901010000000001"]),
   ("time_end", ["20090101000000"]), ("bank_type", ["WX"]),
   ("partner", ["P1"]), ("out_trade_no", ["T1"]),
   ("total_fee", ["-9223372036854775808"]), ("fee_type", ["1"]),
   ("transport_fee", ["9223372036854775807"]), ("product_fee", ["1"])]

/-- C5 counterexample: a correctly signed, otherwise fully valid payload
whose fee fields all parse, with non-zero `transport_fee` and a
mathematical sum `transport_fee + product_fee ≠ total_fee`, is accepted
by `CheckAndInit` (no `InconsistentFees` error): the Go 64-bit addition
wraps `2^63 - 1 + 1` to `-2^63 = total_fee`, so the claim's
unbounded-sum reading of the check is false of the program. -/
theorem c5_unbounded_sum_counterexample :
    goParseInt64 "9223372036854775807" = some 9223372036854775807 ∧
    goParseInt64 "1" = some 1 ∧
    goParseInt64 "-9223372036854775808" = some (-9223372036854775808) ∧
    ((9223372036854775807 : Int) ≠ 0 ∨ (1 : Int) ≠ 0) ∧
    (9223372036854775807 : Int) + 1 ≠ -9223372036854775808 ∧
    firstVal overflowFeeParams "sign"
      = some (signDigest (delSign overflowFeeParams) "secret") ∧
    (checkAndInit zeroNotifyURLData (some overflowFeeParams) "secret"
        ptOk).2.2 = none := by
  refine ⟨by decide, by decide, by decide, by decide, by decide,
    by decide, ?_⟩
  decide

/-- Witness for the amended C5: the 30/70/100 payload passes the fee
check and decodes, while the 30/70/90 payload fails with
`InconsistentFees` (no overflow occurs at these values). -/
theorem c5_fee_invariant_witness :
    (checkAndInit zeroNotifyURLData (some feeParamsGood) "secret"
        ptOk).2.2 = none ∧
    (checkAndInit zeroNotifyURLData (some feeParamsBad) "secret"
        ptOk).2.2 = some GoErr.inconsistentFees :=
  ⟨(c5_fee_invariant feeParamsGood "secret" ptOk 100 30 70 (by decide)
      (Or.inl (by decide))
      ⟨"N1", by decide⟩ ⟨"1", 1, by decide, by decide⟩
      ⟨"0", 0, by decide, by decide⟩
      ⟨"1234567890200901010000000001", by decide⟩
      ⟨"20090101000000", { raw := "20090101000000" }, by decide, rfl⟩
      ⟨"WX", by decide⟩ ⟨"P1", by decide⟩ ⟨"T1", by decide⟩
      ⟨"100", by decide, by decide⟩ (Or.inl (by decide))
      (Or.inr ⟨"30", by decide, by decide⟩)
      (Or.inr ⟨"70", by decide, by decide⟩)
      ⟨"1", 1, by decide, by decide⟩).2.1 (Or.inl (by decide)) (by decide),
   (c5_fee_invariant feeParamsBad "secret" ptOk 90 30 70 (by decide)
      (Or.inl (by decide))
      ⟨"N1", by decide⟩ ⟨"1", 1, by decide, by decide⟩
      ⟨"0", 0, by decide, by decide⟩
      ⟨"1234567890200901010000000001", by decide⟩
      ⟨"20090101000000", { raw := "20090101000000" }, by decide, rfl⟩
      ⟨"WX", by decide⟩ ⟨"P1", by decide⟩ ⟨"T1", by decide⟩
      ⟨"90", by decide, by decide⟩ (Or.inl (by decide))
      (Or.inr ⟨"30", by decide, by decide⟩)
      (Or.inr ⟨"70", by decide, by decide⟩)
      ⟨"1", 1, by decide, by decide⟩).1 (Or.inl (by decide)) (by decide)⟩

/-- Witness for the amended C6 at `noFeeTypeParams`. -/
theorem c6_amended_fee_type_required_witness :
    firstVal noFeeTypeParams "fee_type" = none ∧
    (checkAndInit zeroNotifyURLData (some noFeeTypeParams) "secret"
        ptOk).2.2 = some GoErr.feeTypeEmpty :=
  ⟨by decide,
   c6_amended_fee_type_required noFeeTypeParams "secret" ptOk 100 0 0
     (by decide) (Or.inl (by decide))
     ⟨"N1", by decide⟩ ⟨"1", 1, by decide, by decide⟩
     ⟨"0", 0, by decide, by decide⟩
     ⟨"1234567890200901010000000001", by decide⟩
     ⟨"20090101000000", { raw := "20090101000000" }, by decide, rfl⟩
     ⟨"WX", by decide⟩ ⟨"P1", by decide⟩ ⟨"T1", by decide⟩
     ⟨"100", by decide, by decide⟩ (Or.inl (by decide))
     (Or.inl ⟨by decide, rfl⟩) (Or.inl ⟨by decide, rfl⟩) (by decide)
     (fun h => ((by decide : ¬((0 : Int) ≠ 0 ∨ (0 : Int) ≠ 0)) h).elim)⟩
